import Mathlib

/-!
Verification of the Elections_Scraper repository against its specification.

The repository contains two near-duplicate scripts:
a first version, file elections-scraper.py, embedded below in namespace V1, and
a second version, file elections_scraper.py, embedded below in namespace V2.

HTML pages, the HTTP fetcher, the filesystem and the plotting backend are
external collaborators; they are modelled by explicit data (a page is the
document-ordered list of its table cells plus the optional heading matched by
the fixed CSS selector, a fetcher is a function from URLs to pages or errors,
the filesystem is a list of directories and files).  All Python string
operations are embedded character-list-wise so that every definition evaluates
on concrete inputs.
-/

deriving instance DecidableEq for Except

namespace Scraper

/-- An anchor element found inside a table cell; `href` is its reference
attribute, `none` when the attribute is absent. -/
structure LinkTag where
  href : Option String
deriving Repr, DecidableEq

/-- A table cell of a parsed page: its tag name, its class attribute values,
its headers attribute (if any), its text content, and the first anchor
element inside it (if any). -/
structure Cell where
  tag : String
  classes : List String
  headersAttr : Option String
  text : String
  linkTag : Option LinkTag
deriving Repr, DecidableEq

/-- A parsed HTML page: its table cells in document order and the text of the
first heading matched by the fixed selector for the location name
(none when the selector matches nothing).  Because the selector only matches
headings whose text contains the label Obec:, a present headingText of a
page the program can actually produce always contains that label; theorems
that rely on this state it as an explicit hypothesis through
headingSelectorMatches. -/
structure Page where
  cells : List Cell
  headingText : Option String
deriving Repr, DecidableEq

/-- A network error: the exception class name and its message. -/
structure FetchErr where
  errClass : String
  msg : String
deriving Repr, DecidableEq

/-- The HTTP layer: maps a URL to a parsed page or a network failure. -/
def Fetch : Type := String → Except FetchErr Page

/-- Characters stripped by the Python str.strip method (the whitespace set
restricted to the characters that occur in this data, including the
non-breaking space). -/
def isPySpace (c : Char) : Bool :=
  c = ' ' || c = '\t' || c = '\n' || c = '\r' || c = '\x0b' || c = '\x0c' || c = '\xA0'

/-- Python str.strip with no argument: remove whitespace on both ends. -/
def pyStrip (s : String) : String :=
  String.mk (((s.toList.dropWhile isPySpace).reverse.dropWhile isPySpace).reverse)

/-- Split a character list at every occurrence of the separator; the result is
always nonempty and an empty input yields one empty piece, exactly as Python
str.split with a one-character separator. -/
def splitChar (c : Char) : List Char → List (List Char)
  | [] => [[]]
  | x :: xs =>
    if x = c then [] :: splitChar c xs
    else
      match splitChar c xs with
      | [] => [[x]]
      | y :: ys => (x :: y) :: ys

/-- Python str.split with a one-character separator. -/
def pySplit (c : Char) (s : String) : List String :=
  (splitChar c s.toList).map String.mk

/-- Value of a decimal digit list. -/
def digitsVal (l : List Char) : Nat :=
  l.foldl (fun n c => 10 * n + (c.toNat - 48)) 0

/-- Python int applied to a string: strip whitespace, optional sign, then at
least one decimal digit; any other input raises ValueError, modelled as
`none`. -/
def pyInt (s : String) : Option Int :=
  match (pyStrip s).toList with
  | [] => none
  | c :: rest =>
    let signed : Int × List Char :=
      if c = '-' then (-1, rest) else if c = '+' then (1, rest) else (1, c :: rest)
    if signed.2 ≠ [] ∧ signed.2.all Char.isDigit then
      some (signed.1 * (digitsVal signed.2 : Int))
    else none

/-- Decimal digit character of `n % 10`. -/
def digitChar (n : Nat) : Char := Char.ofNat (48 + n % 10)

/-- Decimal digits of a natural number, with explicit fuel so that the
definition is structural and evaluates in the kernel. -/
def natDigitsAux : Nat → Nat → List Char
  | 0, _ => []
  | fuel + 1, n => if n < 10 then [digitChar n] else natDigitsAux fuel (n / 10) ++ [digitChar (n % 10)]

/-- Decimal rendering of a natural number. -/
def natToStr (n : Nat) : String := String.mk (natDigitsAux (n + 1) n)

/-- Decimal rendering of an integer. -/
def intToStr (i : Int) : String :=
  if i < 0 then "-" ++ natToStr i.natAbs else natToStr i.natAbs

/-- Python dict assignment d[k] = v: an existing key keeps its position and
receives the new value, a new key is appended. -/
def dictInsert {α : Type} (d : List (String × α)) (k : String) (v : α) : List (String × α) :=
  if d.any (fun p => p.1 = k) then d.map (fun p => if p.1 = k then (k, v) else p)
  else d ++ [(k, v)]

/-- Python dict built from a pair list (dict(zip(...))): later pairs with the
same key overwrite earlier values. -/
def dictOf {α : Type} (ps : List (String × α)) : List (String × α) :=
  ps.foldl (fun d p => dictInsert d p.1 p.2) []

/-- Python dict lookup d.get(k). -/
def lookupVal {α : Type} (k : String) (d : List (String × α)) : Option α :=
  (d.find? (fun p => p.1 = k)).map (fun p => p.2)

/-- One row of the aggregated output, as both scripts build it: location name,
per-party votes (absent when the second script found no party cells), and the
three nullable aggregate counts. -/
structure DistrictRecord where
  location : String
  political_parties_votes : Option (List (String × Int))
  count_registered : Option Int
  count_envelopes : Option Int
  count_valid : Option Int
deriving Repr, DecidableEq

/-- The aggregated mapping from district code to record, in insertion order. -/
abbrev ResultSet : Type := List (String × DistrictRecord)

/-- Both scripts share this clean_data function: remove every occurrence of
the non-breaking space character from the text. -/
def clean_data (text : String) (charToRemove : Char := '\xA0') : String :=
  String.mk (text.toList.filter (fun c => c ≠ charToRemove))

/-- The query component of a URL as urlparse extracts it: the part after the
first question mark of the part before the first hash. -/
def urlQuery (url : String) : List Char :=
  ((url.toList.takeWhile (fun c => c ≠ '#')).dropWhile (fun c => c ≠ '?')).tail

/-- First value of a query-string parameter as parse_qs produces it: split on
ampersands, split each item at its first equals sign, drop items without an
equals sign or with an empty value, and return the first value listed under
the parameter. -/
def parseQsFirst (query : List Char) (param : String) : Option String :=
  let pairs := (splitChar '&' query).filterMap (fun item =>
    match item.dropWhile (fun c => c ≠ '=') with
    | [] => none
    | _ :: v =>
      if v = [] then none
      else some (String.mk (item.takeWhile (fun c => c ≠ '=')), String.mk v))
  (pairs.find? (fun p => p.1 = param)).map (fun p => p.2)

/-- get_code_from_url, identical in both scripts: the first value of the
query parameter xobec, or none when it is absent. -/
def get_code_from_url (url : String) (paramName : String := "xobec") : Option String :=
  parseQsFirst (urlQuery url) paramName

/-- find_all on a page filtering by tag and class. -/
def findAll (p : Page) (tag cls : String) : List Cell :=
  p.cells.filter (fun c => c.tag == tag && c.classes.contains cls)

/-- The index-page cells holding district links: find_all("td", class_="cislo"). -/
def linkCells (p : Page) : List Cell := findAll p "td" "cislo"

/-- The party-name cells: find_all("td", class_="overflow_name"). -/
def partyCells (p : Page) : List Cell := findAll p "td" "overflow_name"

/-- The vote-count cells: find_all("td", class_="cislo", headers=two fixed
ballot-sheet column markers). -/
def votesCells (p : Page) : List Cell :=
  p.cells.filter (fun c => c.tag == "td" && c.classes.contains "cislo" &&
    (c.headersAttr == some "t1sa2 t1sb3" || c.headersAttr == some "t2sa2 t2sb3"))

/-- find("td", class_="cislo", headers=h): the first aggregate-count cell
tagged with the given header marker. -/
def dataCell (p : Page) (h : String) : Option Cell :=
  (p.cells.filter (fun c => c.tag == "td" && c.classes.contains "cislo" &&
    c.headersAttr == some h)).head?

/-- Parsing of one vote-count cell: int(clean_data(cell.get_text().strip())). -/
def parseVoteCell (c : Cell) : Option Int := pyInt (clean_data (pyStrip c.text))

/-- The vote-count list comprehension of both scripts: parse every cell, the
first ValueError aborting the whole comprehension (modelled as none). -/
def parseAllVotes : List Cell → Option (List Int)
  | [] => some []
  | c :: cs =>
    match parseVoteCell c, parseAllVotes cs with
    | some v, some vs => some (v :: vs)
    | _, _ => none

/-- The location-name computation both scripts apply to the heading text:
text.strip().split(":")[1]; `none` models the IndexError raised when the
stripped text contains no colon.  On headings actually delivered by the
fixed selector the text contains the label Obec: and hence a colon, so the
IndexError branch is unreachable in the program; it is kept so that the
embedding is total on all Page values. -/
def nameOfHeading (t : String) : Option String :=
  (pySplit ':' (pyStrip t)).get? 1

/-- Substring containment on character lists: the pattern occurs at some
position of the text. -/
def containsSub (pat : List Char) : List Char → Bool
  | [] => pat.isPrefixOf []
  | c :: cs => pat.isPrefixOf (c :: cs) || containsSub pat cs

/-- The semantics of the fixed CSS selector for the heading, a soup-contains
on the label Obec: a heading element is matched exactly when its text
contains that label as a substring.  A matched heading therefore always
carries a colon. -/
def headingSelectorMatches (t : String) : Bool :=
  containsSub "Obec:".toList t.toList

/-- One aggregate-count field as both scripts extract it: find the cell for
the header, parse its cleaned text as an integer; a missing cell or a parse
failure leaves the field null and emits one diagnostic line. -/
def extractField (msgPre : String) (districtName : String) (p : Page) (h : String) :
    Option Int × List String :=
  match dataCell p h with
  | none =>
    (none, [msgPre ++ ": Data cell not found for header " ++ h ++ " in district " ++ districtName])
  | some c =>
    match pyInt (clean_data c.text) with
    | none => (none, ["ERROR: An error occurred while extracting data for header " ++ h])
    | some n => (some n, [])

/-- The diagnostic printed by get_soup on a fetch failure: it names the
failing URL, the exception class and the exception message. -/
def fetchFailMsg (url : String) (e : FetchErr) : String :=
  "ERROR: Failed to fetch the page " ++ url ++ " " ++ e.errClass ++ ": " ++ e.msg

/-- get_soup, identical in both scripts: fetch the URL; a network error or a
non-success status prints a diagnostic naming the URL and the error class and
message and exits the process. -/
def get_soup (fetch : Fetch) (url : String) : Except String Page :=
  match fetch url with
  | Except.error e => Except.error (fetchFailMsg url e)
  | Except.ok p => Except.ok p

/-- The base URL prepended to every extracted link, identical in both scripts. -/
def baseUrl : String := "https://volby.cz/pls/ps2017nss/"

/-- The district loop shared by global_data of the first script and
extract_all_districts_data of the second, parametric in the per-district
body: for every link fetch the page (a fetch failure exits the process with
code 1, because SystemExit is not caught by the per-link except clause),
run the body, append its diagnostics, and insert a produced record into the
result dict keyed by its code. -/
def aggregate (fetch : Fetch)
    (proc : Page → String → Option (String × DistrictRecord) × List String)
    (init : ResultSet × List String) (links : List String) :
    Except (String × Nat) (ResultSet × List String) :=
  links.foldlM
    (fun acc url =>
      match get_soup fetch url with
      | Except.error d => Except.error (d, 1)
      | Except.ok p =>
        match proc p url with
        | (none, ds) => Except.ok (acc.1, acc.2 ++ ds)
        | (some cr, ds) => Except.ok (dictInsert acc.1 cr.1 cr.2, acc.2 ++ ds))
    init

end Scraper

namespace V1

open Scraper

/-- all_district_links of the first script.  For each td.cislo cell it calls
find("a") and then link.get("href") inside a try block whose except clause
lists only TypeError and KeyError: a cell without an anchor raises
AttributeError (None has no attribute get) and a cell whose anchor lacks a
truthy href raises the ValueError built in the try body; neither is caught,
so the whole call aborts with that exception.  Otherwise the base URL is
prepended and the link collected in document order. -/
def all_district_links (p : Page) : Except String (List String) :=
  (linkCells p).foldlM
    (fun acc cell =>
      match cell.linkTag with
      | none => Except.error "AttributeError: NoneType object has no attribute get"
      | some lt =>
        match lt.href with
        | none => Except.error "ValueError: Link or attribute href not found in cell"
        | some h =>
          if h = "" then Except.error "ValueError: Link or attribute href not found in cell"
          else Except.ok (acc ++ [baseUrl ++ h]))
    []

/-- get_votes_of_parties of the first script: party names from the
overflow_name cells, counts from the ballot-sheet vote cells, zipped
positionally into a dict; the whole body sits in a try whose except clause
catches every exception and returns the empty dict with one diagnostic, so a
vote cell whose text fails integer parsing yields the empty dict. -/
def get_votes_of_parties (p : Page) : List (String × Int) × List String :=
  let names := (partyCells p).map (fun c => pyStrip c.text)
  match parseAllVotes (votesCells p) with
  | none => ([], ["ERROR occurred while extracting votes of parties: ValueError"])
  | some counts => (dictOf (names.zip counts), [])

/-- The per-link body of global_data in the first script, applied to an
already fetched district page: the heading must be found (else skip with a
message), its stripped text is split at colons and indexed at one (an absent
colon raises IndexError, caught by the surrounding per-link handler), the
code must be found in the URL (else skip with a message); then party votes
and the three aggregate counts are extracted and the record is returned
together with the diagnostics of the recoverable field failures. -/
def processDistrict (p : Page) (url : String) : Option (String × DistrictRecord) × List String :=
  match p.headingText with
  | none => (none, ["ERROR: District name not found for link: " ++ url])
  | some t =>
    match nameOfHeading t with
    | none => (none, ["Error: An exception occurred for district : list index out of range"])
    | some name =>
      match get_code_from_url url with
      | none => (none, ["ERROR: District code not found for link: " ++ url])
      | some code =>
        let v := get_votes_of_parties p
        let f1 := extractField "ERROR" name p "sa2"
        let f2 := extractField "ERROR" name p "sa3"
        let f3 := extractField "ERROR" name p "sa6"
        (some (code, { location := name, political_parties_votes := some v.1,
                       count_registered := f1.1, count_envelopes := f2.1,
                       count_valid := f3.1 }),
         v.2 ++ f1.2 ++ f2.2 ++ f3.2)

/-- global_data of the first script: extract the links (an exception there
aborts the process), then for every link fetch the page (a fetch failure
exits the process with code 1 regardless of the per-link handler, because
SystemExit is not an Exception) and run the per-link body, inserting each
produced record into the result dict keyed by its code. -/
def global_data (fetch : Fetch) (soup : Page) : Except (String × Nat) (ResultSet × List String) :=
  match all_district_links soup with
  | Except.error e => Except.error (e, 1)
  | Except.ok links => aggregate fetch processDistrict (([] : ResultSet), ([] : List String)) links

/-- add_extension of the first script: always append a dot and the extension. -/
def add_extension (filename extension : String) : String :=
  filename ++ "." ++ extension

/-- The index fetch followed by global_data, as the elections_scraper driver
of the first script runs them. -/
def scrape (fetch : Fetch) (indexUrl : String) : Except (String × Nat) (ResultSet × List String) :=
  match get_soup fetch indexUrl with
  | Except.error d => Except.error (d, 1)
  | Except.ok soup => global_data fetch soup

end V1

namespace V2

open Scraper

/-- collect_url of the second script: the anchor must exist and carry a
truthy href, otherwise none; on success the base URL is prepended. -/
def collect_url (lt : Option LinkTag) (base : String) : Option String :=
  match lt with
  | some l =>
    match l.href with
    | some h => if h = "" then none else some (base ++ h)
    | none => none
  | none => none

/-- extract_all_district_links of the second script: cells whose collect_url
comes back falsy are skipped with a warning, the rest contribute their URL in
document order. -/
def extract_all_district_links (p : Page) : List String × List String :=
  (linkCells p).foldl
    (fun acc cell =>
      match collect_url cell.linkTag baseUrl with
      | none => (acc.1, acc.2 ++ ["WARNING: Failed to obtain complete URL for a link."])
      | some u => (acc.1 ++ [u], acc.2))
    ([], [])

/-- get_district_name of the second script: none when the selector matches
nothing, an error (IndexError, caught by the per-link handler of the caller)
when the stripped heading text has no colon, otherwise the piece of the text
between the first and second colon. -/
def get_district_name (p : Page) : Except String (Option String) :=
  match p.headingText with
  | none => Except.ok none
  | some t =>
    match nameOfHeading t with
    | none => Except.error "IndexError: list index out of range"
    | some s => Except.ok (some s)

/-- get_votes_of_parties of the second script: with no party-name cells it
returns None; otherwise names and counts are extracted and zipped, but the
vote-count parsing sits outside the try block, so a vote cell whose text
fails integer parsing raises ValueError out of the function. -/
def get_votes_of_parties (p : Page) : Except String (Option (List (String × Int))) :=
  let parties := partyCells p
  if parties.isEmpty then Except.ok none
  else
    match parseAllVotes (votesCells p) with
    | none => Except.error "ValueError: invalid literal for int"
    | some counts =>
      Except.ok (some (dictOf ((parties.map (fun c => pyStrip c.text)).zip counts)))

/-- extract_district_data of the second script: a missing or empty district
name returns None (no record, no message), an uncaught IndexError or
ValueError propagates, otherwise the record is built from the party votes and
the three aggregate counts, whose individual failures only add warnings. -/
def extract_district_data (p : Page) : Except String (Option (DistrictRecord × List String)) :=
  match get_district_name p with
  | Except.error e => Except.error e
  | Except.ok none => Except.ok none
  | Except.ok (some name) =>
    if name = "" then Except.ok none
    else
      match get_votes_of_parties p with
      | Except.error e => Except.error e
      | Except.ok votes =>
        let f1 := extractField "WARNING" name p "sa2"
        let f2 := extractField "WARNING" name p "sa3"
        let f3 := extractField "WARNING" name p "sa6"
        Except.ok (some ({ location := name, political_parties_votes := votes,
                           count_registered := f1.1, count_envelopes := f2.1,
                           count_valid := f3.1 },
                         f1.2 ++ f2.2 ++ f3.2))

/-- The per-link body of extract_all_districts_data in the second script,
applied to an already fetched page: the code must be found in the URL (else
skip with a message); a propagated exception from extract_district_data is
caught and logged with the URL; a None from extract_district_data skips the
district silently. -/
def processDistrict (p : Page) (url : String) : Option (String × DistrictRecord) × List String :=
  match get_code_from_url url with
  | none => (none, ["ERROR: District code not found for link: " ++ url])
  | some code =>
    match extract_district_data p with
    | Except.error e => (none, ["Error: An exception occurred for district " ++ url ++ ": " ++ e])
    | Except.ok none => (none, [])
    | Except.ok (some rd) => (some (code, rd.1), rd.2)

/-- extract_all_districts_data of the second script: extract the links
(warnings for bad cells), then for every link fetch the page (a fetch failure
exits the process with code 1) and run the per-link body, inserting each
produced record into the result dict keyed by its code. -/
def extract_all_districts_data (fetch : Fetch) (soup : Page) :
    Except (String × Nat) (ResultSet × List String) :=
  let lw := extract_all_district_links soup
  aggregate fetch processDistrict (([] : ResultSet), lw.2) lw.1

/-- add_extension of the second script: append a dot and the extension unless
the filename already ends with it. -/
def add_extension (filename extension : String) : String :=
  if (("." ++ extension).toList.isSuffixOf filename.toList) then filename
  else filename ++ "." ++ extension

/-- The index fetch followed by extract_all_districts_data, as the
elections_scraper driver of the second script runs them. -/
def scrape (fetch : Fetch) (indexUrl : String) : Except (String × Nat) (ResultSet × List String) :=
  match get_soup fetch indexUrl with
  | Except.error d => Except.error (d, 1)
  | Except.ok soup => extract_all_districts_data fetch soup

end V2

namespace Scraper

/-- The totals loop of plot_top_10_parties, identical in both scripts: for
every district record, iterate its party-votes items and add each count into
the running dict (get with default 0 plus the count); a record whose
party-votes slot holds None instead of a dict raises AttributeError
(None has no attribute items), modelled as the error case. -/
def computePartyTotals (records : List DistrictRecord) : Except String (List (String × Int)) :=
  records.foldlM
    (fun acc r =>
      match r.political_parties_votes with
      | none => Except.error "AttributeError: NoneType object has no attribute items"
      | some votes =>
        Except.ok (votes.foldl (fun d pv => dictInsert d pv.1 ((lookupVal pv.1 d).getD 0 + pv.2)) acc))
    []

/-- Python sorted(key=value, reverse=True): a stable sort on descending
value, here realised by insertion sort, which is stable. -/
def pySortDesc (l : List (String × Int)) : List (String × Int) :=
  List.insertionSort (fun a b => b.2 ≤ a.2) l

/-- plot_top_10_parties, identical in both scripts, reduced to the data it
renders: the party totals sorted stably on descending value and truncated to
the first ten entries; the error case is the AttributeError raised when a
record holds None instead of a dict of votes. -/
def plot_top_10_parties (rs : ResultSet) : Except String (List (String × Int)) :=
  match computePartyTotals (rs.map (fun p => p.2)) with
  | Except.error e => Except.error e
  | Except.ok totals => Except.ok ((pySortDesc totals).take 10)

/-- A filesystem: the directories that exist and the files with their
contents. -/
structure FS where
  dirs : List String
  files : List (String × String)
deriving Repr, DecidableEq

/-- The party columns of the exported table: every party name encountered
across the records, in first-encounter order. -/
def partyColumnsOf (rs : ResultSet) : List String :=
  rs.foldl
    (fun cols p =>
      ((p.2.political_parties_votes).getD []).foldl
        (fun cs kv => if cs.contains kv.1 then cs else cs ++ [kv.1]) cols)
    []

/-- Rendering of one nullable count: empty cell for null. -/
def cellOfOpt : Option Int → String
  | none => ""
  | some n => intToStr n

/-- The CSV text produced for a result set: a byte-order mark, a header row
with the four scalar columns followed by the party columns in
first-encounter order, then one row per district in insertion order, with
empty cells for missing values. -/
def renderCsv (rs : ResultSet) : String :=
  let cols := partyColumnsOf rs
  let header :=
    "\uFEFF" ++ "code,location,count_registered,count_envelopes,count_valid" ++
      cols.foldl (fun a c => a ++ "," ++ c) ""
  let rows := rs.map (fun p =>
    p.1 ++ "," ++ p.2.location ++ "," ++ cellOfOpt p.2.count_registered ++ "," ++
      cellOfOpt p.2.count_envelopes ++ "," ++ cellOfOpt p.2.count_valid ++
      cols.foldl
        (fun a c => a ++ "," ++
          (match lookupVal c ((p.2.political_parties_votes).getD []) with
           | none => ""
           | some v => intToStr v))
        "")
  rows.foldl (fun a row => a ++ row ++ "\n") (header ++ "\n")

end Scraper

namespace V1

open Scraper

/-- get_csv of the first script.  It first builds the DataFrame and selects
the five fixed columns: on an empty result set the frame has no columns and
this selection raises KeyError before the directory creation and the
existence check, so the filesystem is untouched (every record of a nonempty
result set carries all five keys, so there the selection succeeds).  It then
creates the Results directory if absent, builds the target path from the
filename and the csv extension, raises FileExistsError when the target
already exists (leaving the files untouched), and otherwise writes the
rendered CSV to the target. -/
def get_csv (fs : FS) (data : ResultSet) (filename : String) : FS × Except String Unit :=
  if data.isEmpty then
    (fs, Except.error "KeyError: none of the required columns are in the DataFrame")
  else
    let fs1 : FS :=
      { fs with dirs := if "Results" ∈ fs.dirs then fs.dirs else fs.dirs ++ ["Results"] }
    let path := "Results/" ++ add_extension filename "csv"
    if fs1.files.any (fun q => q.1 = path) then
      (fs1, Except.error ("FileExistsError: File " ++ filename ++ " already exists."))
    else
      ({ fs1 with files := fs1.files ++ [(path, renderCsv data)] }, Except.ok ())

end V1

namespace V2

open Scraper

/-- get_csv of the second script: identical to the first, including the
KeyError raised by the column selection on an empty result set before the
directory creation and the existence check; only its add_extension differs,
not duplicating an already present extension. -/
def get_csv (fs : FS) (data : ResultSet) (filename : String) : FS × Except String Unit :=
  if data.isEmpty then
    (fs, Except.error "KeyError: none of the required columns are in the DataFrame")
  else
    let fs1 : FS :=
      { fs with dirs := if "Results" ∈ fs.dirs then fs.dirs else fs.dirs ++ ["Results"] }
    let path := "Results/" ++ add_extension filename "csv"
    if fs1.files.any (fun q => q.1 = path) then
      (fs1, Except.error ("FileExistsError: File " ++ filename ++ " already exists."))
    else
      ({ fs1 with files := fs1.files ++ [(path, renderCsv data)] }, Except.ok ())

end V2

namespace Scraper

/-- The keys of a dict, in order. -/
def keys {α : Type} (d : List (String × α)) : List String := d.map (fun p => p.1)

/-- The total a dict reports for a key, zero when absent. -/
def getTotal (k : String) (d : List (String × Int)) : Int := (lookupVal k d).getD 0

/-- Specification-side sum of the votes a pair list records for one party;
a party absent from the list contributes zero. -/
def partySum (k : String) : List (String × Int) → Int
  | [] => 0
  | pv :: rest => (if pv.1 = k then pv.2 else 0) + partySum k rest

/-- Specification-side total of one party over a record list: the sum of
the votes of that party over all records, a record without the party (or without
any party mapping) contributing zero. -/
def specTotal (k : String) : List DistrictRecord → Int
  | [] => 0
  | r :: rest => partySum k ((r.political_parties_votes).getD []) + specTotal k rest

/-- The location name exactly as the claim words it: the substring of the
heading text after the first colon, trimmed of surrounding whitespace. -/
def spec_location_name (t : String) : String :=
  pyStrip (String.mk ((t.toList.dropWhile (fun c => c ≠ ':')).tail))

/-- The number of vote cells whose text parses successfully, as the claim
counts them. -/
def spec_parsed_count (p : Page) : Nat :=
  ((votesCells p).filter (fun c => (parseVoteCell c).isSome)).length

theorem lookupVal_nil {α : Type} (k : String) : lookupVal k ([] : List (String × α)) = none := by
  simp [lookupVal]

theorem lookupVal_cons_of_pos {α : Type} (p : String × α) (l : List (String × α)) (k : String)
    (h : p.1 = k) : lookupVal k (p :: l) = some p.2 := by
  rw [lookupVal, List.find?_cons_of_pos]
  · rfl
  · simp [h]

theorem lookupVal_cons_of_neg {α : Type} (p : String × α) (l : List (String × α)) (k : String)
    (h : ¬ p.1 = k) : lookupVal k (p :: l) = lookupVal k l := by
  rw [lookupVal, List.find?_cons_of_neg]
  · rfl
  · simp [h]

theorem mem_keys_iff_any {α : Type} (d : List (String × α)) (k : String) :
    (d.any (fun p => p.1 = k)) = true ↔ k ∈ keys d := by
  induction d with
  | nil => simp [keys]
  | cons p ps ih =>
    simp only [List.any_cons, Bool.or_eq_true, decide_eq_true_eq, keys, List.map_cons,
      List.mem_cons] at ih ⊢
    constructor
    · rintro (h | h)
      · exact Or.inl h.symm
      · exact Or.inr (ih.mp h)
    · rintro (h | h)
      · exact Or.inl h.symm
      · exact Or.inr (ih.mpr h)

theorem dictInsert_of_not_mem {α : Type} (d : List (String × α)) (k : String) (v : α)
    (h : k ∉ keys d) : dictInsert d k v = d ++ [(k, v)] := by
  have hb : ¬ ((d.any (fun p => p.1 = k)) = true) := by
    rw [mem_keys_iff_any]
    exact h
  simp [dictInsert, hb]

theorem keys_dictInsert_of_not_mem {α : Type} (d : List (String × α)) (k : String) (v : α)
    (h : k ∉ keys d) : keys (dictInsert d k v) = keys d ++ [k] := by
  rw [dictInsert_of_not_mem d k v h]
  simp [keys]

theorem length_dictInsert_of_not_mem {α : Type} (d : List (String × α)) (k : String) (v : α)
    (h : k ∉ keys d) : (dictInsert d k v).length = d.length + 1 := by
  rw [dictInsert_of_not_mem d k v h]
  simp

theorem lookupVal_map_replace {α : Type} (d : List (String × α)) (k : String) (v : α)
    (h : k ∈ keys d) :
    lookupVal k (d.map (fun p => if p.1 = k then (k, v) else p)) = some v := by
  induction d with
  | nil => simp [keys] at h
  | cons p ps ih =>
    by_cases hp : p.1 = k
    · rw [List.map_cons, if_pos hp, lookupVal_cons_of_pos]
      rfl
    · have h' : k ∈ keys ps := by
        simp [keys] at h ⊢
        rcases h with h | h
        · exact absurd h.symm hp
        · exact h
      rw [List.map_cons, if_neg hp, lookupVal_cons_of_neg _ _ _ hp]
      exact ih h'

theorem lookupVal_map_replace_ne {α : Type} (d : List (String × α)) (k k2 : String) (v : α)
    (h : k2 ≠ k) :
    lookupVal k2 (d.map (fun p => if p.1 = k then (k, v) else p)) = lookupVal k2 d := by
  induction d with
  | nil => simp [lookupVal]
  | cons p ps ih =>
    by_cases hp : p.1 = k
    · have hne : ¬ ((k, v).1 = k2) := fun hc => h (hc.symm)
      rw [List.map_cons, if_pos hp, lookupVal_cons_of_neg _ _ _ hne,
        lookupVal_cons_of_neg _ _ _ (by rw [hp]; exact fun hc => h hc.symm)]
      exact ih
    · rw [List.map_cons, if_neg hp]
      by_cases hq : p.1 = k2
      · rw [lookupVal_cons_of_pos _ _ _ hq, lookupVal_cons_of_pos _ _ _ hq]
      · rw [lookupVal_cons_of_neg _ _ _ hq, lookupVal_cons_of_neg _ _ _ hq]
        exact ih

theorem lookupVal_append_absent {α : Type} (l : List (String × α)) (k : String) (v : α)
    (h : (l.any (fun p => p.1 = k)) = false) : lookupVal k (l ++ [(k, v)]) = some v := by
  induction l with
  | nil => simp [lookupVal]
  | cons p ps ih =>
    simp only [List.any_cons, Bool.or_eq_false_iff] at h
    rw [List.cons_append, lookupVal_cons_of_neg]
    · exact ih h.2
    · simpa using h.1

theorem lookupVal_dictInsert_self {α : Type} (d : List (String × α)) (k : String) (v : α) :
    lookupVal k (dictInsert d k v) = some v := by
  by_cases h : k ∈ keys d
  · have hb : (d.any (fun p => p.1 = k)) = true := (mem_keys_iff_any d k).mpr h
    simp only [dictInsert, hb, if_true]
    exact lookupVal_map_replace d k v h
  · have hb : (d.any (fun p => p.1 = k)) = false := by
      cases hc : d.any (fun p => p.1 = k) with
      | false => rfl
      | true => exact absurd ((mem_keys_iff_any d k).mp hc) h
    rw [dictInsert_of_not_mem d k v h]
    exact lookupVal_append_absent d k v hb

theorem lookupVal_append_single_ne {α : Type} (l : List (String × α)) (k k2 : String) (v : α)
    (h : k2 ≠ k) : lookupVal k2 (l ++ [(k, v)]) = lookupVal k2 l := by
  induction l with
  | nil => simp [lookupVal, Ne.symm h]
  | cons p ps ih =>
    by_cases hq : p.1 = k2
    · rw [List.cons_append, lookupVal_cons_of_pos _ _ _ hq, lookupVal_cons_of_pos _ _ _ hq]
    · rw [List.cons_append, lookupVal_cons_of_neg _ _ _ hq, lookupVal_cons_of_neg _ _ _ hq]
      exact ih

theorem lookupVal_dictInsert_ne {α : Type} (d : List (String × α)) (k k2 : String) (v : α)
    (h : k2 ≠ k) : lookupVal k2 (dictInsert d k v) = lookupVal k2 d := by
  by_cases hm : k ∈ keys d
  · have hb : (d.any (fun p => p.1 = k)) = true := (mem_keys_iff_any d k).mpr hm
    simp only [dictInsert, hb, if_true]
    exact lookupVal_map_replace_ne d k k2 v h
  · rw [dictInsert_of_not_mem d k v hm]
    exact lookupVal_append_single_ne d k k2 v h

theorem dictOf_append_single {α : Type} (ps : List (String × α)) (k : String) (v : α) :
    dictOf (ps ++ [(k, v)]) = dictInsert (dictOf ps) k v := by
  simp [dictOf, List.foldl_append]

theorem splitChar_ne_nil (c : Char) (l : List Char) : splitChar c l ≠ [] := by
  cases l with
  | nil => simp [splitChar]
  | cons x xs =>
    rw [splitChar]
    by_cases hx : x = c
    · simp [hx]
    · simp only [if_neg hx]
      cases h : splitChar c xs with
      | nil => simp
      | cons y ys => simp

theorem splitChar_head (c : Char) (l : List Char) :
    (splitChar c l).head? = some (l.takeWhile (fun x => x ≠ c)) := by
  induction l with
  | nil => simp [splitChar]
  | cons x xs ih =>
    rw [splitChar]
    by_cases hx : x = c
    · simp [hx, List.takeWhile_cons]
    · simp only [if_neg hx]
      cases h : splitChar c xs with
      | nil => exact absurd h (splitChar_ne_nil c xs)
      | cons y ys =>
        rw [h] at ih
        simp at ih
        simp [List.takeWhile_cons, hx, ih]

theorem splitChar_get1 (c : Char) (l : List Char) (h : c ∈ l) :
    (splitChar c l).get? 1 =
      some (((l.dropWhile (fun x => x ≠ c)).tail).takeWhile (fun x => x ≠ c)) := by
  induction l with
  | nil => simp at h
  | cons x xs ih =>
    rw [splitChar]
    by_cases hx : x = c
    · have hd : (x :: xs).dropWhile (fun y => y ≠ c) = x :: xs := by
        rw [List.dropWhile_cons]
        simp [hx]
      rw [hd]
      simp only [if_pos hx, List.get?]
      have := splitChar_head c xs
      cases hs : splitChar c xs with
      | nil => exact absurd hs (splitChar_ne_nil c xs)
      | cons y ys =>
        rw [hs] at this
        simp at this
        simp [this]
    · have hmem : c ∈ xs := by
        cases h with
        | head => exact absurd rfl hx
        | tail _ hm => exact hm
      have hd : (x :: xs).dropWhile (fun y => y ≠ c) = xs.dropWhile (fun y => y ≠ c) := by
        rw [List.dropWhile_cons]
        simp [hx]
      rw [hd]
      simp only [if_neg hx]
      cases hs : splitChar c xs with
      | nil => exact absurd hs (splitChar_ne_nil c xs)
      | cons y ys =>
        rw [hs] at ih
        have ih2 := ih hmem
        simpa using ih2

theorem mem_of_containsSub (pat l : List Char) (h : containsSub pat l = true)
    (c : Char) (hc : c ∈ pat) : c ∈ l := by
  induction l with
  | nil =>
    rw [containsSub] at h
    rw [List.isPrefixOf_iff_prefix] at h
    rw [List.prefix_nil.mp h] at hc
    simp at hc
  | cons x xs ih =>
    rw [containsSub, Bool.or_eq_true] at h
    cases h with
    | inl h =>
      rw [List.isPrefixOf_iff_prefix] at h
      exact h.subset hc
    | inr h => exact List.mem_cons_of_mem x (ih h)

theorem mem_dropWhile_of_mem {α : Type} (p : α → Bool) (l : List α) (c : α)
    (hc : p c = false) (h : c ∈ l) : c ∈ l.dropWhile p := by
  induction l with
  | nil => simp at h
  | cons x xs ih =>
    rw [List.dropWhile_cons]
    by_cases hx : p x = true
    · simp only [hx, if_true]
      cases List.mem_cons.mp h with
      | inl he =>
        subst he
        rw [hc] at hx
        simp at hx
      | inr hm => exact ih hm
    · simp only [Bool.not_eq_true] at hx
      simp only [hx, Bool.false_eq_true, if_false]
      exact h

theorem mem_pyStrip (t : String) (c : Char) (hc : isPySpace c = false)
    (h : c ∈ t.toList) : c ∈ (pyStrip t).toList := by
  rw [pyStrip]
  show c ∈ ((t.toList.dropWhile isPySpace).reverse.dropWhile isPySpace).reverse
  rw [List.mem_reverse]
  apply mem_dropWhile_of_mem _ _ _ hc
  rw [List.mem_reverse]
  exact mem_dropWhile_of_mem _ _ _ hc h

theorem selector_colon_mem (t : String) (h : headingSelectorMatches t = true) :
    ':' ∈ (pyStrip t).toList :=
  mem_pyStrip t ':' (by decide)
    (mem_of_containsSub "Obec:".toList t.toList h ':' (by decide))

theorem selector_name_some (t : String) (h : headingSelectorMatches t = true) :
    ∃ s, nameOfHeading t = some s := by
  rw [nameOfHeading, pySplit, List.get?_map, splitChar_get1 ':' _ (selector_colon_mem t h)]
  exact ⟨_, rfl⟩

theorem parseAllVotes_length (cs : List Cell) (vs : List Int)
    (h : parseAllVotes cs = some vs) : vs.length = cs.length := by
  induction cs generalizing vs with
  | nil =>
    simp [parseAllVotes] at h
    simp [← h]
  | cons c cs ih =>
    rw [parseAllVotes] at h
    cases hc : parseVoteCell c with
    | none => rw [hc] at h; exact absurd h (by simp)
    | some v =>
      cases hcs : parseAllVotes cs with
      | none => rw [hc, hcs] at h; exact absurd h (by simp)
      | some vs2 =>
        rw [hc, hcs] at h
        simp at h
        simp [← h, ih vs2 hcs]

theorem getTotal_dictIncr (d : List (String × Int)) (q k : String) (v : Int) :
    getTotal k (dictInsert d q ((lookupVal q d).getD 0 + v)) =
      getTotal k d + (if q = k then v else 0) := by
  by_cases hq : q = k
  · subst hq
    rw [getTotal, lookupVal_dictInsert_self]
    simp [getTotal]
  · rw [getTotal, lookupVal_dictInsert_ne d q k _ (Ne.symm hq)]
    simp [getTotal, hq]

theorem getTotal_votesFold (votes : List (String × Int)) (d : List (String × Int)) (k : String) :
    getTotal k
        (votes.foldl (fun d pv => dictInsert d pv.1 ((lookupVal pv.1 d).getD 0 + pv.2)) d) =
      getTotal k d + partySum k votes := by
  induction votes generalizing d with
  | nil => simp [partySum]
  | cons pv rest ih =>
    rw [List.foldl_cons, ih, getTotal_dictIncr, partySum]
    by_cases hq : pv.1 = k
    · simp [hq]
      ring
    · simp [hq]

theorem computePartyTotals_aux (records : List DistrictRecord) (acc : List (String × Int))
    (h : ∀ r ∈ records, (r.political_parties_votes).isSome = true) :
    ∃ l,
      records.foldlM
          (fun acc r =>
            match r.political_parties_votes with
            | none => Except.error "AttributeError: NoneType object has no attribute items"
            | some votes =>
              Except.ok
                (votes.foldl (fun d pv => dictInsert d pv.1 ((lookupVal pv.1 d).getD 0 + pv.2))
                  acc))
          acc = Except.ok l ∧
        ∀ k, getTotal k l = getTotal k acc + specTotal k records := by
  induction records generalizing acc with
  | nil =>
    refine ⟨acc, by rw [List.foldlM_nil]; rfl, ?_⟩
    intro k
    simp [specTotal]
  | cons r rs ih =>
    have hr : (r.political_parties_votes).isSome = true := h r (List.mem_cons_self r rs)
    cases hv : r.political_parties_votes with
    | none => rw [hv] at hr; simp at hr
    | some votes =>
      have hrest : ∀ q ∈ rs, (q.political_parties_votes).isSome = true := by
        intro q hq
        exact h q (List.mem_cons_of_mem r hq)
      obtain ⟨l, hl, hk⟩ := ih
        (votes.foldl (fun d pv => dictInsert d pv.1 ((lookupVal pv.1 d).getD 0 + pv.2)) acc)
        hrest
      refine ⟨l, ?_, ?_⟩
      · rw [List.foldlM_cons]
        simp only [hv]
        exact hl
      · intro k
        rw [hk k, getTotal_votesFold, specTotal, hv]
        simp
        ring

theorem computePartyTotals_ok (records : List DistrictRecord)
    (h : ∀ r ∈ records, (r.political_parties_votes).isSome = true) :
    ∃ l, computePartyTotals records = Except.ok l ∧
      ∀ k, getTotal k l = specTotal k records := by
  obtain ⟨l, hl, hk⟩ := computePartyTotals_aux records [] h
  refine ⟨l, hl, ?_⟩
  intro k
  rw [hk k]
  simp [getTotal, lookupVal]

theorem computePartyTotals_err_aux (records : List DistrictRecord) (acc : List (String × Int))
    (h : ∃ r ∈ records, r.political_parties_votes = none) :
    records.foldlM
        (fun acc r =>
          match r.political_parties_votes with
          | none => Except.error "AttributeError: NoneType object has no attribute items"
          | some votes =>
            Except.ok
              (votes.foldl (fun d pv => dictInsert d pv.1 ((lookupVal pv.1 d).getD 0 + pv.2))
                acc))
        acc =
      Except.error "AttributeError: NoneType object has no attribute items" := by
  induction records generalizing acc with
  | nil => simp at h
  | cons r rs ih =>
    rw [List.foldlM_cons]
    cases hv : r.political_parties_votes with
    | none => rfl
    | some votes =>
      have hrest : ∃ q ∈ rs, q.political_parties_votes = none := by
        rcases h with ⟨q, hq, hqn⟩
        cases List.mem_cons.mp hq with
        | inl he =>
          subst he
          rw [hv] at hqn
          exact absurd hqn (by simp)
        | inr hm => exact ⟨q, hm, hqn⟩
      exact ih _ hrest

theorem computePartyTotals_err (records : List DistrictRecord)
    (h : ∃ r ∈ records, r.political_parties_votes = none) :
    computePartyTotals records =
      Except.error "AttributeError: NoneType object has no attribute items" :=
  computePartyTotals_err_aux records [] h

theorem aggregate_nil (fetch : Fetch)
    (proc : Page → String → Option (String × DistrictRecord) × List String)
    (init : ResultSet × List String) : aggregate fetch proc init [] = Except.ok init := by
  rw [aggregate, List.foldlM_nil]
  rfl

theorem aggregate_cons_fetch_err (fetch : Fetch)
    (proc : Page → String → Option (String × DistrictRecord) × List String)
    (init : ResultSet × List String) (u : String) (ls : List String) (e : FetchErr)
    (h : fetch u = Except.error e) :
    aggregate fetch proc init (u :: ls) = Except.error (fetchFailMsg u e, 1) := by
  rw [aggregate, List.foldlM_cons]
  simp only [get_soup, h]
  rfl

theorem aggregate_cons_none (fetch : Fetch)
    (proc : Page → String → Option (String × DistrictRecord) × List String)
    (init : ResultSet × List String) (u : String) (ls : List String) (p : Page)
    (ds : List String) (hf : fetch u = Except.ok p) (hp : proc p u = (none, ds)) :
    aggregate fetch proc init (u :: ls) =
      aggregate fetch proc (init.1, init.2 ++ ds) ls := by
  rw [aggregate, List.foldlM_cons]
  simp only [get_soup, hf, hp]
  rfl

theorem aggregate_cons_some (fetch : Fetch)
    (proc : Page → String → Option (String × DistrictRecord) × List String)
    (init : ResultSet × List String) (u : String) (ls : List String) (p : Page)
    (cr : String × DistrictRecord) (ds : List String)
    (hf : fetch u = Except.ok p) (hp : proc p u = (some cr, ds)) :
    aggregate fetch proc init (u :: ls) =
      aggregate fetch proc (dictInsert init.1 cr.1 cr.2, init.2 ++ ds) ls := by
  rw [aggregate, List.foldlM_cons]
  simp only [get_soup, hf, hp]
  rfl

theorem aggregate_all_ok (fetch : Fetch)
    (proc : Page → String → Option (String × DistrictRecord) × List String)
    (links : List String) (init : ResultSet × List String)
    (h : ∀ u ∈ links, ∃ p, fetch u = Except.ok p) :
    ∃ res, aggregate fetch proc init links = Except.ok res := by
  induction links generalizing init with
  | nil => exact ⟨init, aggregate_nil fetch proc init⟩
  | cons u ls ih =>
    obtain ⟨p, hp⟩ := h u (List.mem_cons_self u ls)
    have hrest : ∀ v ∈ ls, ∃ q, fetch v = Except.ok q := fun v hv =>
      h v (List.mem_cons_of_mem u hv)
    cases hpu : proc p u with
    | mk o ds =>
      cases o with
      | none =>
        rw [aggregate_cons_none fetch proc init u ls p ds hp hpu]
        exact ih _ hrest
      | some cr =>
        rw [aggregate_cons_some fetch proc init u ls p cr ds hp hpu]
        exact ih _ hrest

theorem aggregate_first_err (fetch : Fetch)
    (proc : Page → String → Option (String × DistrictRecord) × List String)
    (l1 : List String) (u : String) (l2 : List String) (e : FetchErr)
    (init : ResultSet × List String)
    (h1 : ∀ v ∈ l1, ∃ p, fetch v = Except.ok p) (he : fetch u = Except.error e) :
    aggregate fetch proc init (l1 ++ u :: l2) = Except.error (fetchFailMsg u e, 1) := by
  induction l1 generalizing init with
  | nil =>
    rw [List.nil_append]
    exact aggregate_cons_fetch_err fetch proc init u l2 e he
  | cons v vs ih =>
    obtain ⟨p, hp⟩ := h1 v (List.mem_cons_self v vs)
    have hrest : ∀ w ∈ vs, ∃ q, fetch w = Except.ok q := fun w hw =>
      h1 w (List.mem_cons_of_mem v hw)
    rw [List.cons_append]
    cases hpu : proc p v with
    | mk o ds =>
      cases o with
      | none =>
        rw [aggregate_cons_none fetch proc init v (vs ++ u :: l2) p ds hp hpu]
        exact ih _ hrest
      | some cr =>
        rw [aggregate_cons_some fetch proc init v (vs ++ u :: l2) p cr ds hp hpu]
        exact ih _ hrest

theorem aggregate_diag_prefix (fetch : Fetch)
    (proc : Page → String → Option (String × DistrictRecord) × List String)
    (links : List String) (init : ResultSet × List String) (rs : ResultSet)
    (ds : List String) (h : aggregate fetch proc init links = Except.ok (rs, ds)) :
    ∃ t, ds = init.2 ++ t := by
  induction links generalizing init with
  | nil =>
    rw [aggregate_nil] at h
    refine ⟨[], ?_⟩
    have h2 := (Except.ok.injEq _ _).mp h
    rw [h2]
    simp
  | cons u ls ih =>
    cases hf : fetch u with
    | error e =>
      rw [aggregate_cons_fetch_err fetch proc init u ls e hf] at h
      exact absurd h (by simp)
    | ok p =>
      cases hpu : proc p u with
      | mk o dd =>
        cases o with
        | none =>
          rw [aggregate_cons_none fetch proc init u ls p dd hf hpu] at h
          obtain ⟨t, ht⟩ := ih _ h
          exact ⟨dd ++ t, by rw [ht]; simp⟩
        | some cr =>
          rw [aggregate_cons_some fetch proc init u ls p cr dd hf hpu] at h
          obtain ⟨t, ht⟩ := ih _ h
          exact ⟨dd ++ t, by rw [ht]; simp⟩

theorem except_bind_error {ε α β : Type} (e : ε) (f : α → Except ε β) :
    (Except.error e >>= f) = Except.error e := rfl

theorem except_bind_ok {ε α β : Type} (a : α) (f : α → Except ε β) :
    (Except.ok a >>= f) = f a := rfl

theorem aggregate_count (fetch : Fetch)
    (proc : Page → String → Option (String × DistrictRecord) × List String)
    (links : List String) :
    ∀ (init : ResultSet × List String) (rs : ResultSet),
      aggregate fetch proc init links = Except.ok (rs, init.2) →
      (∀ u ∈ links, ∀ p, fetch u = Except.ok p → (proc p u).2 = [] →
        ∃ c r, get_code_from_url u = some c ∧ (proc p u).1 = some (c, r)) →
      (links.filterMap (fun u => get_code_from_url u)).Nodup →
      (∀ u ∈ links, ∀ c, get_code_from_url u = some c → c ∉ keys init.1) →
      rs.length = init.1.length + links.length := by
  induction links with
  | nil =>
    intro init rs h _ _ _
    rw [aggregate_nil] at h
    have h2 := congrArg Prod.fst ((Except.ok.injEq _ _).mp h)
    simp at h2
    simp [h2]
  | cons u ls ih =>
    intro init rs h hins hnodup hfresh
    cases hf : fetch u with
    | error e =>
      rw [aggregate_cons_fetch_err fetch proc init u ls e hf] at h
      exact absurd h (by simp)
    | ok p =>
      cases hpu : proc p u with
      | mk o dd =>
        cases o with
        | none =>
          rw [aggregate_cons_none fetch proc init u ls p dd hf hpu] at h
          obtain ⟨t, ht⟩ := aggregate_diag_prefix fetch proc ls _ rs init.2 h
          have hdd : dd = [] := by
            have hlen := congrArg List.length ht
            simp at hlen
            exact hlen.1
          obtain ⟨c, r, _, ho⟩ :=
            hins u (List.mem_cons_self u ls) p hf (by rw [hpu]; exact hdd)
          rw [hpu] at ho
          simp at ho
        | some cr =>
          rw [aggregate_cons_some fetch proc init u ls p cr dd hf hpu] at h
          obtain ⟨t, ht⟩ := aggregate_diag_prefix fetch proc ls _ rs init.2 h
          have hdd : dd = [] := by
            have hlen := congrArg List.length ht
            simp at hlen
            exact hlen.1
          obtain ⟨c, r, hc, ho⟩ :=
            hins u (List.mem_cons_self u ls) p hf (by rw [hpu]; exact hdd)
          rw [hpu] at ho
          simp at ho
          have hcr1 : cr.1 = c := by rw [ho]
          have hfr : cr.1 ∉ keys init.1 := by
            rw [hcr1]
            exact hfresh u (List.mem_cons_self u ls) c hc
          rw [hdd, List.append_nil] at h
          have hfm : (u :: ls).filterMap (fun v => get_code_from_url v) =
              c :: ls.filterMap (fun v => get_code_from_url v) := by
            simp [List.filterMap_cons, hc]
          rw [hfm] at hnodup
          have hcnot := (List.nodup_cons.mp hnodup).1
          have hnodup2 := (List.nodup_cons.mp hnodup).2
          have hins2 : ∀ v ∈ ls, ∀ q, fetch v = Except.ok q → (proc q v).2 = [] →
              ∃ c2 r2, get_code_from_url v = some c2 ∧ (proc q v).1 = some (c2, r2) :=
            fun v hv => hins v (List.mem_cons_of_mem u hv)
          have hfresh2 : ∀ v ∈ ls, ∀ c2, get_code_from_url v = some c2 →
              c2 ∉ keys (dictInsert init.1 cr.1 cr.2) := by
            intro v hv c2 hc2 hmem
            rw [keys_dictInsert_of_not_mem init.1 cr.1 cr.2 hfr] at hmem
            rcases List.mem_append.mp hmem with hm | hm
            · exact hfresh v (List.mem_cons_of_mem u hv) c2 hc2 hm
            · apply hcnot
              simp at hm
              rw [hm, hcr1] at hc2
              exact List.mem_filterMap.mpr ⟨v, hv, hc2⟩
          have hrec := ih (dictInsert init.1 cr.1 cr.2, init.2) rs h hins2 hnodup2 hfresh2
          rw [hrec]
          simp [length_dictInsert_of_not_mem init.1 cr.1 cr.2 hfr]
          omega

theorem v1_links_length_aux (cells : List Scraper.Cell) :
    ∀ (acc out : List String),
      cells.foldlM
          (fun acc cell =>
            match cell.linkTag with
            | none => Except.error "AttributeError: NoneType object has no attribute get"
            | some lt =>
              match lt.href with
              | none => Except.error "ValueError: Link or attribute href not found in cell"
              | some h =>
                if h = "" then
                  Except.error "ValueError: Link or attribute href not found in cell"
                else Except.ok (acc ++ [Scraper.baseUrl ++ h]))
          acc = Except.ok out →
      out.length = acc.length + cells.length := by
  induction cells with
  | nil =>
    intro acc out h
    rw [List.foldlM_nil] at h
    have h2 : acc = out := Except.ok.inj h
    simp [h2]
  | cons cell cs ih =>
    intro acc out h
    rw [List.foldlM_cons] at h
    cases hlt : cell.linkTag with
    | none =>
      simp only [hlt, Scraper.except_bind_error] at h
      exact absurd h (by simp)
    | some lt =>
      cases hh : lt.href with
      | none =>
        simp only [hlt, hh, Scraper.except_bind_error] at h
        exact absurd h (by simp)
      | some hr =>
        by_cases hz : hr = ""
        · simp only [hlt, hh, if_pos hz, Scraper.except_bind_error] at h
          exact absurd h (by simp)
        · simp only [hlt, hh, if_neg hz, Scraper.except_bind_ok] at h
          have := ih (acc ++ [Scraper.baseUrl ++ hr]) out h
          simp at this
          simp [this]
          omega

theorem v1_all_district_links_length (p : Scraper.Page) (links : List String)
    (h : V1.all_district_links p = Except.ok links) :
    links.length = (Scraper.linkCells p).length := by
  rw [V1.all_district_links] at h
  have := v1_links_length_aux (Scraper.linkCells p) [] links h
  simpa using this

theorem v2_links_foldl_fst (cells : List Scraper.Cell) :
    ∀ (acc : List String × List String),
      (cells.foldl
          (fun acc cell =>
            match V2.collect_url cell.linkTag Scraper.baseUrl with
            | none => (acc.1, acc.2 ++ ["WARNING: Failed to obtain complete URL for a link."])
            | some u => (acc.1 ++ [u], acc.2))
          acc).1 =
        acc.1 ++ cells.filterMap (fun c => V2.collect_url c.linkTag Scraper.baseUrl) := by
  induction cells with
  | nil =>
    intro acc
    simp
  | cons cell cs ih =>
    intro acc
    rw [List.foldl_cons, List.filterMap_cons]
    cases hc : V2.collect_url cell.linkTag Scraper.baseUrl with
    | none => simp [ih]
    | some u => simp [ih]

theorem v2_links_foldl_snd_prefix (cells : List Scraper.Cell) :
    ∀ (acc : List String × List String),
      ∃ w,
        (cells.foldl
            (fun acc cell =>
              match V2.collect_url cell.linkTag Scraper.baseUrl with
              | none => (acc.1, acc.2 ++ ["WARNING: Failed to obtain complete URL for a link."])
              | some u => (acc.1 ++ [u], acc.2))
            acc).2 = acc.2 ++ w := by
  induction cells with
  | nil =>
    intro acc
    exact ⟨[], by simp⟩
  | cons cell cs ih =>
    intro acc
    rw [List.foldl_cons]
    cases hcu : V2.collect_url cell.linkTag Scraper.baseUrl with
    | none =>
      obtain ⟨w, hw⟩ := ih (acc.1, acc.2 ++ ["WARNING: Failed to obtain complete URL for a link."])
      exact ⟨"WARNING: Failed to obtain complete URL for a link." :: w, by rw [hw]; simp⟩
    | some u =>
      obtain ⟨w, hw⟩ := ih (acc.1 ++ [u], acc.2)
      exact ⟨w, hw⟩

theorem v2_links_foldl_snd (cells : List Scraper.Cell) :
    ∀ (acc : List String × List String),
      (cells.foldl
            (fun acc cell =>
              match V2.collect_url cell.linkTag Scraper.baseUrl with
              | none => (acc.1, acc.2 ++ ["WARNING: Failed to obtain complete URL for a link."])
              | some u => (acc.1 ++ [u], acc.2))
            acc).2 = acc.2 →
      ∀ c ∈ cells, (V2.collect_url c.linkTag Scraper.baseUrl).isSome = true := by
  induction cells with
  | nil =>
    intro acc _ c hc
    simp at hc
  | cons cell cs ih =>
    intro acc h c hc
    rw [List.foldl_cons] at h
    cases hcu : V2.collect_url cell.linkTag Scraper.baseUrl with
    | none =>
      rw [hcu] at h
      obtain ⟨w, hw⟩ :=
        v2_links_foldl_snd_prefix cs
          (acc.1, acc.2 ++ ["WARNING: Failed to obtain complete URL for a link."])
      rw [hw] at h
      have hlen := congrArg List.length h
      simp at hlen
    | some u =>
      rw [hcu] at h
      cases List.mem_cons.mp hc with
      | inl he =>
        subst he
        simp [hcu]
      | inr hm => exact ih _ h c hm

theorem filterMap_length_of_all_some {α β : Type} (f : α → Option β) (l : List α)
    (h : ∀ a ∈ l, (f a).isSome = true) : (l.filterMap f).length = l.length := by
  induction l with
  | nil => simp
  | cons a as ih =>
    rw [List.filterMap_cons]
    cases hf : f a with
    | none =>
      have := h a (List.mem_cons_self a as)
      rw [hf] at this
      simp at this
    | some b =>
      simp [ih (fun x hx => h x (List.mem_cons_of_mem a hx))]

theorem pySortDesc_perm (l : List (String × Int)) : (pySortDesc l).Perm l :=
  List.perm_insertionSort _ l

theorem pySortDesc_sorted (l : List (String × Int)) :
    (pySortDesc l).Pairwise (fun a b => b.2 ≤ a.2) := by
  haveI : IsTotal (String × Int) (fun a b : String × Int => b.2 ≤ a.2) := ⟨by
    intro a b
    exact le_total b.2 a.2⟩
  haveI : IsTrans (String × Int) (fun a b : String × Int => b.2 ≤ a.2) := ⟨by
    intro a b c h1 h2
    exact le_trans h2 h1⟩
  exact List.sorted_insertionSort _ l

end Scraper

namespace Fixtures

open Scraper

/-- A concrete district URL carrying the district code 598925 in its xobec
query parameter. -/
def urlD : String := "https://volby.cz/pls/ps2017nss/ps311?xjazyk=CZ&xkraj=12&xobec=598925"

/-- An aggregate-count data cell with the given header marker and text. -/
def dataCellF (h t : String) : Cell :=
  { tag := "td", classes := ["cislo"], headersAttr := some h, text := t, linkTag := none }

/-- A party-name cell with the given text. -/
def partyCellF (t : String) : Cell :=
  { tag := "td", classes := ["overflow_name"], headersAttr := none, text := t, linkTag := none }

/-- A vote-count cell of the first ballot-sheet column. -/
def voteCell1 (t : String) : Cell :=
  { tag := "td", classes := ["cislo"], headersAttr := some "t1sa2 t1sb3", text := t, linkTag := none }

/-- A vote-count cell of the second ballot-sheet column. -/
def voteCell2 (t : String) : Cell :=
  { tag := "td", classes := ["cislo"], headersAttr := some "t2sa2 t2sb3", text := t, linkTag := none }

/-- An index cell whose anchor carries the given reference. -/
def linkCellF (href : String) : Cell :=
  { tag := "td", classes := ["cislo"], headersAttr := none, text := "1",
    linkTag := some { href := some href } }

/-- An index cell that contains no anchor element at all. -/
def linkCellNoAnchor : Cell :=
  { tag := "td", classes := ["cislo"], headersAttr := none, text := "1", linkTag := none }

/-- An index page whose first cell has no anchor and whose second cell is
well formed. -/
def pageBadIndex : Page :=
  { cells := [linkCellNoAnchor, linkCellF "ps311?xobec=1"], headingText := none }

/-- A district page with all three aggregate cells but no party-name cell. -/
def pageNoParty : Page :=
  { cells := [dataCellF "sa2" "1\u00A0002", dataCellF "sa3" "700", dataCellF "sa6" "690"],
    headingText := some "Obec: Praha" }

/-- A district page whose heading text holds two colons. -/
def pageTwoColon : Page := { cells := [], headingText := some "Obec: a:b" }

/-- A district page whose heading text ends right at the colon, so the
extracted name is empty. -/
def pageEmptyName : Page := { cells := [], headingText := some "Obec:" }

/-- A district page with one party-name cell and two vote cells, the first of
which does not parse as an integer. -/
def pageVoteFail : Page :=
  { cells := [partyCellF "A", voteCell1 "xx", voteCell2 "3"], headingText := some "Obec: Brno" }

/-- A district page with two parsed parties and all aggregate cells. -/
def pageGoodVotes : Page :=
  { cells := [dataCellF "sa2" "1\u00A0002", dataCellF "sa3" "700", dataCellF "sa6" "690",
              partyCellF " Party A ", voteCell1 "10", partyCellF "Party B", voteCell2 "3"],
    headingText := some "Obec: Praha" }

/-- The two district URLs of the duplicate-code scenario: both carry the
code 9. -/
def urlDup1 : String := Scraper.baseUrl ++ "a?xobec=9"

/-- Second URL of the duplicate-code scenario. -/
def urlDup2 : String := Scraper.baseUrl ++ "b?xobec=9"

/-- First district page of the duplicate-code scenario: clean, no warnings. -/
def pageD1 : Page :=
  { cells := [dataCellF "sa2" "100", dataCellF "sa3" "90", dataCellF "sa6" "80"],
    headingText := some "Obec: X" }

/-- Second district page of the duplicate-code scenario: clean, no warnings. -/
def pageD2 : Page :=
  { cells := [dataCellF "sa2" "100", dataCellF "sa3" "90", dataCellF "sa6" "80"],
    headingText := some "Obec: Y" }

/-- Index page with two valid cells linking to the two duplicate-code pages. -/
def idxDup : Page :=
  { cells := [linkCellF "a?xobec=9", linkCellF "b?xobec=9"], headingText := none }

/-- Fetcher for the duplicate-code scenario. -/
def fetchDup : Fetch := fun u =>
  if u = urlDup1 then Except.ok pageD1
  else if u = urlDup2 then Except.ok pageD2
  else Except.error { errClass := "HTTPError", msg := "404" }

/-- Index page with two valid cells carrying distinct codes. -/
def idxOk : Page :=
  { cells := [linkCellF "a?xobec=1", linkCellF "b?xobec=2"], headingText := none }

/-- Fetcher for the distinct-code scenario. -/
def fetchOk2 : Fetch := fun u =>
  if u = Scraper.baseUrl ++ "a?xobec=1" then Except.ok pageD1
  else if u = Scraper.baseUrl ++ "b?xobec=2" then Except.ok pageD2
  else Except.error { errClass := "HTTPError", msg := "404" }

/-- A fetcher on which every request fails. -/
def fetchAllFail : Fetch := fun _ =>
  Except.error { errClass := "ConnectionError", msg := "refused" }

/-- An index URL used by the fetch fixtures. -/
def urlIdx : String := "https://volby.cz/pls/ps2017nss/ps3?xjazyk=CZ"

/-- An index page with a single valid district cell. -/
def idxOne : Page := { cells := [linkCellF "a?xobec=9"], headingText := none }

/-- A fetcher that serves only the index page and fails on every district
page. -/
def fetchIdxOnly : Fetch := fun u =>
  if u = urlIdx then Except.ok idxOne
  else Except.error { errClass := "HTTPError", msg := "404" }

/-- A fetcher that serves the index page and one district page. -/
def fetchAllOk : Fetch := fun u =>
  if u = urlIdx then Except.ok idxOne else Except.ok pageD1

/-- An empty filesystem. -/
def fs0 : FS := { dirs := [], files := [] }

/-- A filesystem already holding the target CSV file. -/
def fsExisting : FS := { dirs := ["Results"], files := [("Results/out.csv", "old")] }

/-- First district record of the chart example: party A has 10 votes and
party B has 3. -/
def recA1 : DistrictRecord :=
  { location := "x", political_parties_votes := some [("A", 10), ("B", 3)],
    count_registered := none, count_envelopes := none, count_valid := none }

/-- Second district record of the chart example: party A has 7 votes and
party B has 0. -/
def recA2 : DistrictRecord :=
  { location := "y", political_parties_votes := some [("A", 7), ("B", 0)],
    count_registered := none, count_envelopes := none, count_valid := none }

/-- The two-district result set of the chart example. -/
def rsAB : ResultSet := [("1", recA1), ("2", recA2)]

/-- The record the second script produces for a district page without
party-name cells: the party-votes slot holds None. -/
def recNoVotes : DistrictRecord :=
  { location := " Praha", political_parties_votes := none,
    count_registered := some 1002, count_envelopes := some 700, count_valid := some 690 }

/-- The record the first script extracts from pageD1. -/
def recD1v1 : DistrictRecord :=
  { location := " X", political_parties_votes := some [],
    count_registered := some 100, count_envelopes := some 90, count_valid := some 80 }

/-- The record the first script extracts from pageD2. -/
def recD2v1 : DistrictRecord :=
  { location := " Y", political_parties_votes := some [],
    count_registered := some 100, count_envelopes := some 90, count_valid := some 80 }

/-- The record the second script extracts from pageD1. -/
def recD1v2 : DistrictRecord :=
  { location := " X", political_parties_votes := none,
    count_registered := some 100, count_envelopes := some 90, count_valid := some 80 }

/-- The record the second script extracts from pageD2. -/
def recD2v2 : DistrictRecord :=
  { location := " Y", political_parties_votes := none,
    count_registered := some 100, count_envelopes := some 90, count_valid := some 80 }

/-- The record the first script produces for the empty-name page. -/
def recEmptyName : DistrictRecord :=
  { location := "", political_parties_votes := some [],
    count_registered := none, count_envelopes := none, count_valid := none }

/-- The record the first script produces for the vote-parse-failure page:
the parties dict collapses to empty. -/
def recVoteFail : DistrictRecord :=
  { location := " Brno", political_parties_votes := some [],
    count_registered := none, count_envelopes := none, count_valid := none }

end Fixtures

theorem extractField_fst (pre nm : String) (p : Scraper.Page) (h : String) :
    (Scraper.extractField pre nm p h).1 =
      (Scraper.dataCell p h).bind (fun cell => Scraper.pyInt (Scraper.clean_data cell.text)) := by
  cases hd : Scraper.dataCell p h with
  | none => simp [Scraper.extractField, hd]
  | some c =>
    cases hp : Scraper.pyInt (Scraper.clean_data c.text) with
    | none => simp [Scraper.extractField, hd, hp]
    | some n => simp [Scraper.extractField, hd, hp]

theorem v1_proc_inserts (p : Scraper.Page) (u : String)
    (h : (V1.processDistrict p u).2 = []) :
    ∃ c r, Scraper.get_code_from_url u = some c ∧ (V1.processDistrict p u).1 = some (c, r) := by
  cases hh : p.headingText with
  | none => simp [V1.processDistrict, hh] at h
  | some t =>
    cases hn : Scraper.nameOfHeading t with
    | none => simp [V1.processDistrict, hh, hn] at h
    | some nm =>
      cases hc : Scraper.get_code_from_url u with
      | none => simp [V1.processDistrict, hh, hn, hc] at h
      | some code =>
        refine ⟨code,
          { location := nm,
            political_parties_votes := some (V1.get_votes_of_parties p).1,
            count_registered := (Scraper.extractField "ERROR" nm p "sa2").1,
            count_envelopes := (Scraper.extractField "ERROR" nm p "sa3").1,
            count_valid := (Scraper.extractField "ERROR" nm p "sa6").1 }, rfl, ?_⟩
        simp [V1.processDistrict, hh, hn, hc]

theorem v2_proc_inserts (p : Scraper.Page) (u : String) (t s : String)
    (hht : p.headingText = some t) (hn : Scraper.nameOfHeading t = some s) (hs : s ≠ "")
    (h2 : (V2.processDistrict p u).2 = []) :
    ∃ c r, Scraper.get_code_from_url u = some c ∧ (V2.processDistrict p u).1 = some (c, r) := by
  cases hc : Scraper.get_code_from_url u with
  | none => simp [V2.processDistrict, hc] at h2
  | some code =>
    have hga : V2.get_district_name p = Except.ok (some s) := by
      simp [V2.get_district_name, hht, hn]
    cases hv : V2.get_votes_of_parties p with
    | error e =>
      have hx : V2.extract_district_data p = Except.error e := by
        simp [V2.extract_district_data, hga, hs, hv]
      simp [V2.processDistrict, hc, hx] at h2
    | ok votes =>
      have hx : V2.extract_district_data p =
          Except.ok (some
            ({ location := s, political_parties_votes := votes,
               count_registered := (Scraper.extractField "WARNING" s p "sa2").1,
               count_envelopes := (Scraper.extractField "WARNING" s p "sa3").1,
               count_valid := (Scraper.extractField "WARNING" s p "sa6").1 },
             (Scraper.extractField "WARNING" s p "sa2").2 ++
               (Scraper.extractField "WARNING" s p "sa3").2 ++
               (Scraper.extractField "WARNING" s p "sa6").2)) := by
        simp [V2.extract_district_data, hga, hs, hv]
      refine ⟨code,
        { location := s, political_parties_votes := votes,
          count_registered := (Scraper.extractField "WARNING" s p "sa2").1,
          count_envelopes := (Scraper.extractField "WARNING" s p "sa3").1,
          count_valid := (Scraper.extractField "WARNING" s p "sa6").1 }, rfl, ?_⟩
      simp [V2.processDistrict, hc, hx]

/-- C2 counterexample: on an empty result set with no pre-existing target,
both scripts raise KeyError at the DataFrame column selection before the
directory creation and the existence guard: no directory is created and no
CSV is written, refuting the claim that a missing target always leads to the
directory being created and the CSV written. -/
theorem C2_counterexample :
    V1.get_csv Fixtures.fs0 [] "out" =
      (Fixtures.fs0, Except.error "KeyError: none of the required columns are in the DataFrame") ∧
    V2.get_csv Fixtures.fs0 [] "out" =
      (Fixtures.fs0, Except.error "KeyError: none of the required columns are in the DataFrame") ∧
    Fixtures.fs0.dirs = [] ∧ Fixtures.fs0.files = [] ∧
    (Fixtures.fs0.files.any
      (fun q => q.1 = "Results/" ++ V1.add_extension "out" "csv")) = false := by decide

/-- C2 amended: on an empty result set the export raises KeyError before the
directory creation and the existence guard, touching nothing; on a nonempty
result set it raises FileExistsError and writes nothing when the target
already exists, leaving the files unchanged, and otherwise creates the
Results directory if absent and writes the CSV; proved for both scripts. -/
theorem C2_csv_export_guard :
    (∀ (fs : Scraper.FS) (data : Scraper.ResultSet) (name : String),
      (data = [] → V1.get_csv fs data name =
        (fs, Except.error "KeyError: none of the required columns are in the DataFrame")) ∧
      (data ≠ [] →
        (fs.files.any (fun q => q.1 = "Results/" ++ V1.add_extension name "csv")) = true →
        (V1.get_csv fs data name).1.files = fs.files ∧
        (V1.get_csv fs data name).2 =
          Except.error ("FileExistsError: File " ++ name ++ " already exists.")) ∧
      (data ≠ [] →
        (fs.files.any (fun q => q.1 = "Results/" ++ V1.add_extension name "csv")) = false →
        "Results" ∈ (V1.get_csv fs data name).1.dirs ∧
        Scraper.lookupVal ("Results/" ++ V1.add_extension name "csv")
            (V1.get_csv fs data name).1.files = some (Scraper.renderCsv data) ∧
        (V1.get_csv fs data name).2 = Except.ok ())) ∧
    (∀ (fs : Scraper.FS) (data : Scraper.ResultSet) (name : String),
      (data = [] → V2.get_csv fs data name =
        (fs, Except.error "KeyError: none of the required columns are in the DataFrame")) ∧
      (data ≠ [] →
        (fs.files.any (fun q => q.1 = "Results/" ++ V2.add_extension name "csv")) = true →
        (V2.get_csv fs data name).1.files = fs.files ∧
        (V2.get_csv fs data name).2 =
          Except.error ("FileExistsError: File " ++ name ++ " already exists.")) ∧
      (data ≠ [] →
        (fs.files.any (fun q => q.1 = "Results/" ++ V2.add_extension name "csv")) = false →
        "Results" ∈ (V2.get_csv fs data name).1.dirs ∧
        Scraper.lookupVal ("Results/" ++ V2.add_extension name "csv")
            (V2.get_csv fs data name).1.files = some (Scraper.renderCsv data) ∧
        (V2.get_csv fs data name).2 = Except.ok ())) := by
  constructor
  · intro fs data name
    refine ⟨?_, ?_, ?_⟩
    · intro hd
      simp [V1.get_csv, hd]
    · intro hd h
      simp [V1.get_csv, hd, h]
    · intro hd h
      refine ⟨?_, ?_, ?_⟩
      · simp [V1.get_csv, hd, h]
        by_cases hr : "Results" ∈ fs.dirs
        · simp [hr]
        · simp [hr]
      · simp [V1.get_csv, hd, h]
        exact Scraper.lookupVal_append_absent fs.files _ _ h
      · simp [V1.get_csv, hd, h]
  · intro fs data name
    refine ⟨?_, ?_, ?_⟩
    · intro hd
      simp [V2.get_csv, hd]
    · intro hd h
      simp [V2.get_csv, hd, h]
    · intro hd h
      refine ⟨?_, ?_, ?_⟩
      · simp [V2.get_csv, hd, h]
        by_cases hr : "Results" ∈ fs.dirs
        · simp [hr]
        · simp [hr]
      · simp [V2.get_csv, hd, h]
        exact Scraper.lookupVal_append_absent fs.files _ _ h
      · simp [V2.get_csv, hd, h]

/-- Witness for C2 at concrete filesystems and a nonempty result set: the
KeyError path on empty data, the guard on an existing target, and the write
on a fresh one. -/
theorem C2_csv_export_guard_witness :
    V1.get_csv Fixtures.fsExisting [] "out" =
      (Fixtures.fsExisting,
       Except.error "KeyError: none of the required columns are in the DataFrame") ∧
    ((V1.get_csv Fixtures.fsExisting Fixtures.rsAB "out").1.files = Fixtures.fsExisting.files ∧
      (V1.get_csv Fixtures.fsExisting Fixtures.rsAB "out").2 =
        Except.error ("FileExistsError: File " ++ "out" ++ " already exists.")) ∧
    ("Results" ∈ (V2.get_csv Fixtures.fs0 Fixtures.rsAB "out").1.dirs ∧
      Scraper.lookupVal ("Results/" ++ V2.add_extension "out" "csv")
          (V2.get_csv Fixtures.fs0 Fixtures.rsAB "out").1.files =
        some (Scraper.renderCsv Fixtures.rsAB) ∧
      (V2.get_csv Fixtures.fs0 Fixtures.rsAB "out").2 = Except.ok ()) :=
  ⟨(C2_csv_export_guard.1 Fixtures.fsExisting [] "out").1 (by decide),
   (C2_csv_export_guard.1 Fixtures.fsExisting Fixtures.rsAB "out").2.1 (by decide) (by decide),
   (C2_csv_export_guard.2 Fixtures.fs0 Fixtures.rsAB "out").2.2 (by decide) (by decide)⟩

/-- C3: on an index page whose first cell has no anchor, the first script
raises an uncaught AttributeError (its except clause lists only TypeError and
KeyError) and the run aborts, while the second script prints the warning,
skips the cell and returns the remaining URLs in document order; in general
the second script returns exactly the collected URLs of the cells in document
order with duplicates preserved. -/
theorem C3_link_extractor_skips :
    V1.all_district_links Fixtures.pageBadIndex =
      Except.error "AttributeError: NoneType object has no attribute get" ∧
    V2.extract_all_district_links Fixtures.pageBadIndex =
      ([Scraper.baseUrl ++ "ps311?xobec=1"],
       ["WARNING: Failed to obtain complete URL for a link."]) ∧
    (∀ p : Scraper.Page,
      (V2.extract_all_district_links p).1 =
        (Scraper.linkCells p).filterMap (fun c => V2.collect_url c.linkTag Scraper.baseUrl)) := by
  refine ⟨by decide, by decide, ?_⟩
  intro p
  have h := Scraper.v2_links_foldl_fst (Scraper.linkCells p) ([], [])
  simpa [V2.extract_all_district_links] using h

/-- C6 counterexample: for the heading text Obec: a:b both scripts extract
the location name as the raw piece between the first and second colon,
namely space-a, which differs from the substring after the first colon
trimmed of whitespace, namely a:b. -/
theorem C6_counterexample :
    Scraper.nameOfHeading "Obec: a:b" = some " a" ∧
    V2.get_district_name Fixtures.pageTwoColon = Except.ok (some " a") ∧
    Scraper.spec_location_name "Obec: a:b" = "a:b" ∧
    (" a" : String) ≠ "a:b" := by decide

/-- C6 amended: whenever the heading is present and its stripped text holds a
colon, the extracted location name is the substring of the stripped text
strictly between the first colon and the following colon or end of text,
with no further trimming. -/
theorem C6_location_name (p : Scraper.Page) (t : String)
    (h1 : p.headingText = some t) (h2 : ':' ∈ (Scraper.pyStrip t).toList) :
    Scraper.nameOfHeading t =
      some (String.mk
        ((((Scraper.pyStrip t).toList.dropWhile (fun c => c ≠ ':')).tail).takeWhile
          (fun c => c ≠ ':'))) ∧
    V2.get_district_name p =
      Except.ok (some (String.mk
        ((((Scraper.pyStrip t).toList.dropWhile (fun c => c ≠ ':')).tail).takeWhile
          (fun c => c ≠ ':')))) := by
  have key : Scraper.nameOfHeading t =
      some (String.mk
        ((((Scraper.pyStrip t).toList.dropWhile (fun c => c ≠ ':')).tail).takeWhile
          (fun c => c ≠ ':'))) := by
    rw [Scraper.nameOfHeading, Scraper.pySplit, List.get?_map,
      Scraper.splitChar_get1 ':' _ h2]
    rfl
  exact ⟨key, by simp [V2.get_district_name, h1, key]⟩

/-- Witness for C6 at the concrete two-colon heading. -/
theorem C6_location_name_witness :
    Scraper.nameOfHeading "Obec: a:b" =
      some (String.mk
        ((((Scraper.pyStrip "Obec: a:b").toList.dropWhile (fun c => c ≠ ':')).tail).takeWhile
          (fun c => c ≠ ':'))) ∧
    V2.get_district_name Fixtures.pageTwoColon =
      Except.ok (some (String.mk
        ((((Scraper.pyStrip "Obec: a:b").toList.dropWhile (fun c => c ≠ ':')).tail).takeWhile
          (fun c => c ≠ ':')))) :=
  C6_location_name Fixtures.pageTwoColon "Obec: a:b" (by decide) (by decide)

/-- C9 counterexample: the two implementations differ on filename extension
handling, a behavioural difference the claim excludes: for an input that
already ends in .csv the first script doubles the extension and the second
keeps it. -/
theorem C9_counterexample :
    V1.add_extension "out.csv" "csv" = "out.csv.csv" ∧
    V2.add_extension "out.csv" "csv" = "out.csv" ∧
    ("out.csv.csv" : String) ≠ "out.csv" := by decide

/-- C9 amended: the implementations agree on add_extension whenever the name
does not already end with the extension, but beyond the stated None-versus-
empty difference they also diverge on: a filename already carrying the
extension; an index cell with a missing anchor (the first script raises, the
second warns and skips); a district whose extracted name is empty (the first
script inserts a record with an empty location, the second silently skips);
and a district with an unparseable vote count (the first script inserts the
record with an empty party dict, the second skips the district). -/
theorem C9_equivalence_differences :
    (∀ f e : String, (("." ++ e).toList.isSuffixOf f.toList) = false →
      V1.add_extension f e = V2.add_extension f e) ∧
    (V1.all_district_links Fixtures.pageBadIndex =
        Except.error "AttributeError: NoneType object has no attribute get" ∧
      (V2.extract_all_district_links Fixtures.pageBadIndex).1 =
        [Scraper.baseUrl ++ "ps311?xobec=1"]) ∧
    ((V1.processDistrict Fixtures.pageEmptyName Fixtures.urlD).1 =
        some ("598925", Fixtures.recEmptyName) ∧
      V2.processDistrict Fixtures.pageEmptyName Fixtures.urlD = (none, [])) ∧
    ((V1.processDistrict Fixtures.pageVoteFail Fixtures.urlD).1 =
        some ("598925", Fixtures.recVoteFail) ∧
      (V2.processDistrict Fixtures.pageVoteFail Fixtures.urlD).1 = none) := by
  refine ⟨?_, by decide, by decide, by decide⟩
  intro f e h
  have h2 : ¬ (("." ++ e).toList <:+ f.toList) := by
    intro hc
    rw [← @List.isSuffixOf_iff_suffix Char _ _ (("." ++ e).toList) f.toList] at hc
    rw [h] at hc
    exact absurd hc (by simp)
  simp at h2
  simp [V1.add_extension, V2.add_extension, h2]

/-- Witness for C9 on a name without the extension, where the two
implementations agree. -/
theorem C9_equivalence_differences_witness :
    V1.add_extension "out" "csv" = V2.add_extension "out" "csv" :=
  C9_equivalence_differences.1 "out" "csv" (by decide)

/-- C10 counterexample: on a page with one party-name cell and two vote
cells of which exactly one parses, the claim predicts min(1, 1) = 1 entry,
but the first script returns the empty dict, with a diagnostic rather than
silently. -/
theorem C10_counterexample :
    (V1.get_votes_of_parties Fixtures.pageVoteFail).1.length = 0 ∧
    min (Scraper.partyCells Fixtures.pageVoteFail).length
        (Scraper.spec_parsed_count Fixtures.pageVoteFail) = 1 ∧
    (0 : Nat) ≠ 1 ∧
    (V1.get_votes_of_parties Fixtures.pageVoteFail).2 =
      ["ERROR occurred while extracting votes of parties: ValueError"] := by decide

/-- C10 amended: when every matched vote cell parses, the zip holds exactly
min(number of name cells, number of vote cells) pairs, the excess names are
dropped with no diagnostic, and a duplicated party name keeps the value of
its last pairing; when some vote cell fails to parse, the first script
returns the empty dict with one diagnostic and the second script raises, so
the district is skipped. -/
theorem C10_votes_zip (p : Scraper.Page) (counts : List Int)
    (h : Scraper.parseAllVotes (Scraper.votesCells p) = some counts) :
    V1.get_votes_of_parties p =
      (Scraper.dictOf (((Scraper.partyCells p).map (fun c => Scraper.pyStrip c.text)).zip counts),
       []) ∧
    (((Scraper.partyCells p).map (fun c => Scraper.pyStrip c.text)).zip counts).length =
      min (Scraper.partyCells p).length (Scraper.votesCells p).length ∧
    ((Scraper.partyCells p).isEmpty = false →
      V2.get_votes_of_parties p =
        Except.ok (some (Scraper.dictOf
          (((Scraper.partyCells p).map (fun c => Scraper.pyStrip c.text)).zip counts)))) ∧
    (∀ (ps : List (String × Int)) (k : String) (v : Int),
      Scraper.lookupVal k (Scraper.dictOf (ps ++ [(k, v)])) = some v) ∧
    (∀ q : Scraper.Page, Scraper.parseAllVotes (Scraper.votesCells q) = none →
      V1.get_votes_of_parties q =
        ([], ["ERROR occurred while extracting votes of parties: ValueError"]) ∧
      ((Scraper.partyCells q).isEmpty = false →
        V2.get_votes_of_parties q = Except.error "ValueError: invalid literal for int")) := by
  refine ⟨?_, ?_, ?_, ?_, ?_⟩
  · simp [V1.get_votes_of_parties, h]
  · rw [List.length_zip, List.length_map]
    rw [Scraper.parseAllVotes_length (Scraper.votesCells p) counts h]
  · intro hne
    simp [V2.get_votes_of_parties, hne, h]
  · intro ps k v
    rw [Scraper.dictOf_append_single, Scraper.lookupVal_dictInsert_self]
  · intro q hq
    constructor
    · simp [V1.get_votes_of_parties, hq]
    · intro hne
      simp [V2.get_votes_of_parties, hne, hq]

/-- Witness for C10 at a page whose two vote cells both parse. -/
theorem C10_votes_zip_witness :
    V1.get_votes_of_parties Fixtures.pageGoodVotes =
      (Scraper.dictOf
        (((Scraper.partyCells Fixtures.pageGoodVotes).map
            (fun c => Scraper.pyStrip c.text)).zip [10, 3]),
       []) ∧
    (((Scraper.partyCells Fixtures.pageGoodVotes).map
        (fun c => Scraper.pyStrip c.text)).zip [10, 3]).length =
      min (Scraper.partyCells Fixtures.pageGoodVotes).length
        (Scraper.votesCells Fixtures.pageGoodVotes).length :=
  ⟨(C10_votes_zip Fixtures.pageGoodVotes [10, 3] (by decide)).1,
   (C10_votes_zip Fixtures.pageGoodVotes [10, 3] (by decide)).2.1⟩

theorem v2_extract_fields (p : Scraper.Page)
    (rd : Scraper.DistrictRecord × List String)
    (h : V2.extract_district_data p = Except.ok (some rd)) :
    rd.1.count_registered =
        (Scraper.dataCell p "sa2").bind
          (fun cell => Scraper.pyInt (Scraper.clean_data cell.text)) ∧
      rd.1.count_envelopes =
        (Scraper.dataCell p "sa3").bind
          (fun cell => Scraper.pyInt (Scraper.clean_data cell.text)) ∧
      rd.1.count_valid =
        (Scraper.dataCell p "sa6").bind
          (fun cell => Scraper.pyInt (Scraper.clean_data cell.text)) := by
  cases hg : V2.get_district_name p with
  | error e => simp [V2.extract_district_data, hg] at h
  | ok maybeName =>
    cases maybeName with
    | none => simp [V2.extract_district_data, hg] at h
    | some nm =>
      by_cases hnm : nm = ""
      · simp [V2.extract_district_data, hg, hnm] at h
      · cases hv : V2.get_votes_of_parties p with
        | error e => simp [V2.extract_district_data, hg, hnm, hv] at h
        | ok votes =>
          simp [V2.extract_district_data, hg, hnm, hv] at h
          rw [← h]
          simp [extractField_fst]

/-- C1 counterexample: a realizable district page whose heading is matched by
the selector (its text Obec: contains the label, hence the selector finds
it) and whose URL carries the code, yet the second script inserts no record,
because the extracted name is empty; this breaks the claimed
if-and-only-if. -/
theorem C1_counterexample :
    Scraper.headingSelectorMatches "Obec:" = true ∧
    Fixtures.pageEmptyName.headingText = some "Obec:" ∧
    Scraper.get_code_from_url Fixtures.urlD = some "598925" ∧
    (V2.processDistrict Fixtures.pageEmptyName Fixtures.urlD).1 = none := by decide

/-- C1 amended: on pages the program can produce (a present heading text is
matched by the selector and therefore contains the label and a colon), the
first script inserts a record exactly when the heading is found and the code
is found, as the claim states; the second script additionally requires the
extracted name to be nonempty and, when party-name cells exist, every
matched vote cell to parse.  In every inserted record each aggregate-count
field independently equals the parse of its data cell, null when the cell is
missing or unparseable. -/
theorem C1_record_insertion (p : Scraper.Page) (url : String)
    (hsel : ∀ t, p.headingText = some t → Scraper.headingSelectorMatches t = true) :
    ((V1.processDistrict p url).1.isSome = true ↔
      ((∃ t, p.headingText = some t) ∧ (Scraper.get_code_from_url url).isSome = true)) ∧
    ((V2.processDistrict p url).1.isSome = true ↔
      ((Scraper.get_code_from_url url).isSome = true ∧
        (∃ t s, p.headingText = some t ∧ Scraper.nameOfHeading t = some s ∧ s ≠ "") ∧
        ((Scraper.partyCells p).isEmpty = true ∨
          (Scraper.parseAllVotes (Scraper.votesCells p)).isSome = true))) ∧
    (∀ c r, (V1.processDistrict p url).1 = some (c, r) →
      r.count_registered =
          (Scraper.dataCell p "sa2").bind
            (fun cell => Scraper.pyInt (Scraper.clean_data cell.text)) ∧
        r.count_envelopes =
          (Scraper.dataCell p "sa3").bind
            (fun cell => Scraper.pyInt (Scraper.clean_data cell.text)) ∧
        r.count_valid =
          (Scraper.dataCell p "sa6").bind
            (fun cell => Scraper.pyInt (Scraper.clean_data cell.text))) ∧
    (∀ c r, (V2.processDistrict p url).1 = some (c, r) →
      r.count_registered =
          (Scraper.dataCell p "sa2").bind
            (fun cell => Scraper.pyInt (Scraper.clean_data cell.text)) ∧
        r.count_envelopes =
          (Scraper.dataCell p "sa3").bind
            (fun cell => Scraper.pyInt (Scraper.clean_data cell.text)) ∧
        r.count_valid =
          (Scraper.dataCell p "sa6").bind
            (fun cell => Scraper.pyInt (Scraper.clean_data cell.text))) := by
  refine ⟨?_, ?_, ?_, ?_⟩
  · cases hh : p.headingText with
    | none => simp [V1.processDistrict, hh]
    | some t =>
      obtain ⟨nm, hn⟩ := Scraper.selector_name_some t (hsel t hh)
      cases hc : Scraper.get_code_from_url url with
      | none => simp [V1.processDistrict, hh, hn, hc]
      | some code => simp [V1.processDistrict, hh, hn, hc]
  · cases hc : Scraper.get_code_from_url url with
    | none => simp [V2.processDistrict, hc]
    | some code =>
      cases hh : p.headingText with
      | none =>
        simp [V2.processDistrict, hc, V2.extract_district_data, V2.get_district_name, hh]
      | some t =>
        obtain ⟨nm, hn⟩ := Scraper.selector_name_some t (hsel t hh)
        by_cases hnm : nm = ""
        · simp [V2.processDistrict, hc, V2.extract_district_data, V2.get_district_name,
            hh, hn, hnm]
        · by_cases hpe : (Scraper.partyCells p).isEmpty = true
          · simp [V2.processDistrict, hc, V2.extract_district_data, V2.get_district_name,
              V2.get_votes_of_parties, hh, hn, hnm, hpe]
          · cases hv : Scraper.parseAllVotes (Scraper.votesCells p) with
            | none =>
              simp [V2.processDistrict, hc, V2.extract_district_data, V2.get_district_name,
                V2.get_votes_of_parties, hh, hn, hnm, hpe, hv]
            | some counts =>
              simp [V2.processDistrict, hc, V2.extract_district_data, V2.get_district_name,
                V2.get_votes_of_parties, hh, hn, hnm, hpe, hv]
  · intro c r hr
    cases hh : p.headingText with
    | none => simp [V1.processDistrict, hh] at hr
    | some t =>
      cases hn : Scraper.nameOfHeading t with
      | none => simp [V1.processDistrict, hh, hn] at hr
      | some nm =>
        cases hc : Scraper.get_code_from_url url with
        | none => simp [V1.processDistrict, hh, hn, hc] at hr
        | some code =>
          simp [V1.processDistrict, hh, hn, hc] at hr
          rw [← hr.2]
          simp [extractField_fst]
  · intro c r hr
    cases hc : Scraper.get_code_from_url url with
    | none => simp [V2.processDistrict, hc] at hr
    | some code =>
      cases hd : V2.extract_district_data p with
      | error e => simp [V2.processDistrict, hc, hd] at hr
      | ok od =>
        cases od with
        | none => simp [V2.processDistrict, hc, hd] at hr
        | some rd =>
          simp [V2.processDistrict, hc, hd] at hr
          have hrec := v2_extract_fields p rd hd
          rw [← hr.2]
          exact hrec

/-- Witness for C1: on a fully well-formed district page both scripts insert
a record. -/
theorem C1_record_insertion_witness :
    (V1.processDistrict Fixtures.pageGoodVotes Fixtures.urlD).1.isSome = true ∧
    (V2.processDistrict Fixtures.pageGoodVotes Fixtures.urlD).1.isSome = true :=
  ⟨(C1_record_insertion Fixtures.pageGoodVotes Fixtures.urlD
        (by intro t ht; injection ht with h2; subst h2; decide)).1.mpr
      ⟨⟨"Obec: Praha", rfl⟩, by decide⟩,
   (C1_record_insertion Fixtures.pageGoodVotes Fixtures.urlD
        (by intro t ht; injection ht with h2; subst h2; decide)).2.1.mpr
      ⟨by decide, ⟨"Obec: Praha", " Praha", rfl, by decide, by decide⟩, Or.inr (by decide)⟩⟩

/-- C4 counterexample: in the second script a district page without
party-name cells yields a record whose party-votes slot is None; the record
is produced, but chart rendering over a result set containing it raises
AttributeError (None has no items), so the pipeline does fail. -/
theorem C4_counterexample :
    (V2.processDistrict Fixtures.pageNoParty Fixtures.urlD).1 =
      some ("598925", Fixtures.recNoVotes) ∧
    Scraper.plot_top_10_parties [("598925", Fixtures.recNoVotes)] =
      Except.error "AttributeError: NoneType object has no attribute items" := by decide

/-- C4 amended: when the party-name search finds nothing, both scripts still
produce the record: the first with an empty mapping, after which neither CSV
export nor chart totals fail; the second with an absent mapping, after which
CSV export still succeeds on any nonempty result set with a fresh target
(a result set containing such a record is nonempty) but chart totals fail on
any result set holding such a record. -/
theorem C4_no_party_cells (p : Scraper.Page) (url : String) (t s c : String)
    (hpc : Scraper.partyCells p = [])
    (hht : p.headingText = some t) (hn : Scraper.nameOfHeading t = some s) (hs : s ≠ "")
    (hc : Scraper.get_code_from_url url = some c) :
    (∃ r, (V1.processDistrict p url).1 = some (c, r) ∧
      r.political_parties_votes = some []) ∧
    (∃ r, (V2.processDistrict p url).1 = some (c, r) ∧
      r.political_parties_votes = none) ∧
    (∀ records : List Scraper.DistrictRecord,
      (∀ r ∈ records, (r.political_parties_votes).isSome = true) →
      ∃ l, Scraper.computePartyTotals records = Except.ok l) ∧
    (∀ (records : List Scraper.DistrictRecord) (r : Scraper.DistrictRecord),
      r ∈ records → r.political_parties_votes = none →
      Scraper.computePartyTotals records =
        Except.error "AttributeError: NoneType object has no attribute items") ∧
    (∀ (fs : Scraper.FS) (data : Scraper.ResultSet) (name : String),
      data ≠ [] →
      (fs.files.any (fun q => q.1 = "Results/" ++ V2.add_extension name "csv")) = false →
      (V2.get_csv fs data name).2 = Except.ok ()) := by
  have hv1 : (V1.get_votes_of_parties p).1 = [] := by
    cases hv : Scraper.parseAllVotes (Scraper.votesCells p) with
    | none => simp [V1.get_votes_of_parties, hv]
    | some counts => simp [V1.get_votes_of_parties, hv, hpc, Scraper.dictOf]
  refine ⟨?_, ?_, ?_, ?_, ?_⟩
  · refine ⟨{ location := s,
              political_parties_votes := some (V1.get_votes_of_parties p).1,
              count_registered := (Scraper.extractField "ERROR" s p "sa2").1,
              count_envelopes := (Scraper.extractField "ERROR" s p "sa3").1,
              count_valid := (Scraper.extractField "ERROR" s p "sa6").1 }, ?_, ?_⟩
    · simp [V1.processDistrict, hht, hn, hc]
    · simp [hv1]
  · have hg : V2.get_district_name p = Except.ok (some s) := by
      simp [V2.get_district_name, hht, hn]
    have hvp : V2.get_votes_of_parties p = Except.ok none := by
      simp [V2.get_votes_of_parties, hpc]
    refine ⟨{ location := s, political_parties_votes := none,
              count_registered := (Scraper.extractField "WARNING" s p "sa2").1,
              count_envelopes := (Scraper.extractField "WARNING" s p "sa3").1,
              count_valid := (Scraper.extractField "WARNING" s p "sa6").1 }, ?_, rfl⟩
    simp [V2.processDistrict, hc, V2.extract_district_data, hg, hs, hvp]
  · intro records h
    obtain ⟨l, hl, _⟩ := Scraper.computePartyTotals_ok records h
    exact ⟨l, hl⟩
  · intro records r hr hn2
    exact Scraper.computePartyTotals_err records ⟨r, hr, hn2⟩
  · intro fs data name hd h
    simp [V2.get_csv, hd, h]

/-- Witness for C4 at the concrete party-less district page. -/
theorem C4_no_party_cells_witness :
    (∃ r, (V1.processDistrict Fixtures.pageNoParty Fixtures.urlD).1 = some ("598925", r) ∧
      r.political_parties_votes = some []) ∧
    (∃ r, (V2.processDistrict Fixtures.pageNoParty Fixtures.urlD).1 = some ("598925", r) ∧
      r.political_parties_votes = none) :=
  ⟨(C4_no_party_cells Fixtures.pageNoParty Fixtures.urlD "Obec: Praha" " Praha" "598925"
      (by decide) (by decide) (by decide) (by decide) (by decide)).1,
   (C4_no_party_cells Fixtures.pageNoParty Fixtures.urlD "Obec: Praha" " Praha" "598925"
      (by decide) (by decide) (by decide) (by decide) (by decide)).2.1⟩

/-- C5: any fetch failure on the index page or on a district page (all
earlier district fetches succeeding) yields a process exit carrying the
diagnostic that names the URL and the error class and message, with exit
code 1, in both scripts; and when every fetch succeeds the run always
completes in both scripts, because the per-link handler absorbs every other
error. -/
theorem C5_fatal_fetch (fetch : Scraper.Fetch) (url : String) :
    (∀ e, fetch url = Except.error e →
      V1.scrape fetch url = Except.error (Scraper.fetchFailMsg url e, 1) ∧
      V2.scrape fetch url = Except.error (Scraper.fetchFailMsg url e, 1) ∧ (1 : Nat) ≠ 0) ∧
    (∀ soup l1 u l2 e, fetch url = Except.ok soup →
      (V2.extract_all_district_links soup).1 = l1 ++ u :: l2 →
      (∀ v ∈ l1, ∃ p, fetch v = Except.ok p) →
      fetch u = Except.error e →
      V2.scrape fetch url = Except.error (Scraper.fetchFailMsg u e, 1)) ∧
    (∀ soup, fetch url = Except.ok soup →
      (∀ u ∈ (V2.extract_all_district_links soup).1, ∃ p, fetch u = Except.ok p) →
      ∃ res, V2.scrape fetch url = Except.ok res) ∧
    (∀ soup links l1 u l2 e, fetch url = Except.ok soup →
      V1.all_district_links soup = Except.ok links →
      links = l1 ++ u :: l2 →
      (∀ v ∈ l1, ∃ p, fetch v = Except.ok p) →
      fetch u = Except.error e →
      V1.scrape fetch url = Except.error (Scraper.fetchFailMsg u e, 1)) ∧
    (∀ soup links, fetch url = Except.ok soup →
      V1.all_district_links soup = Except.ok links →
      (∀ u ∈ links, ∃ p, fetch u = Except.ok p) →
      ∃ res, V1.scrape fetch url = Except.ok res) := by
  refine ⟨?_, ?_, ?_, ?_, ?_⟩
  · intro e he
    refine ⟨?_, ?_, by omega⟩
    · simp [V1.scrape, Scraper.get_soup, he]
    · simp [V2.scrape, Scraper.get_soup, he]
  · intro soup l1 u l2 e hok hlinks h1 he
    have hs : V2.scrape fetch url = V2.extract_all_districts_data fetch soup := by
      simp [V2.scrape, Scraper.get_soup, hok]
    rw [hs, V2.extract_all_districts_data, hlinks]
    exact Scraper.aggregate_first_err fetch V2.processDistrict l1 u l2 e _ h1 he
  · intro soup hok hall
    have hs : V2.scrape fetch url = V2.extract_all_districts_data fetch soup := by
      simp [V2.scrape, Scraper.get_soup, hok]
    rw [hs, V2.extract_all_districts_data]
    exact Scraper.aggregate_all_ok fetch V2.processDistrict _ _ hall
  · intro soup links l1 u l2 e hok hlinks hdec h1 he
    have hs : V1.scrape fetch url = V1.global_data fetch soup := by
      simp [V1.scrape, Scraper.get_soup, hok]
    rw [hs, V1.global_data, hlinks, hdec]
    exact Scraper.aggregate_first_err fetch V1.processDistrict l1 u l2 e _ h1 he
  · intro soup links hok hlinks hall
    have hs : V1.scrape fetch url = V1.global_data fetch soup := by
      simp [V1.scrape, Scraper.get_soup, hok]
    rw [hs, V1.global_data, hlinks]
    exact Scraper.aggregate_all_ok fetch V1.processDistrict links _ hall

/-- Witness for C5: a failing index fetch is fatal, a failing district fetch
is fatal in both scripts, and an all-successful fetch run completes in both
scripts. -/
theorem C5_fatal_fetch_witness :
    (V1.scrape Fixtures.fetchAllFail Fixtures.urlIdx =
      Except.error
        (Scraper.fetchFailMsg Fixtures.urlIdx
          { errClass := "ConnectionError", msg := "refused" }, 1)) ∧
    (V2.scrape Fixtures.fetchIdxOnly Fixtures.urlIdx =
      Except.error
        (Scraper.fetchFailMsg (Scraper.baseUrl ++ "a?xobec=9")
          { errClass := "HTTPError", msg := "404" }, 1)) ∧
    (∃ res, V2.scrape Fixtures.fetchAllOk Fixtures.urlIdx = Except.ok res) ∧
    (V1.scrape Fixtures.fetchIdxOnly Fixtures.urlIdx =
      Except.error
        (Scraper.fetchFailMsg (Scraper.baseUrl ++ "a?xobec=9")
          { errClass := "HTTPError", msg := "404" }, 1)) ∧
    (∃ res, V1.scrape Fixtures.fetchAllOk Fixtures.urlIdx = Except.ok res) :=
  ⟨((C5_fatal_fetch Fixtures.fetchAllFail Fixtures.urlIdx).1
      { errClass := "ConnectionError", msg := "refused" } (by decide)).1,
   (C5_fatal_fetch Fixtures.fetchIdxOnly Fixtures.urlIdx).2.1 Fixtures.idxOne
      [] (Scraper.baseUrl ++ "a?xobec=9") []
      { errClass := "HTTPError", msg := "404" }
      (by decide) (by decide) (by intro v hv; simp at hv) (by decide),
   (C5_fatal_fetch Fixtures.fetchAllOk Fixtures.urlIdx).2.2.1 Fixtures.idxOne (by decide)
      (by
        intro u hu
        have h2 : u = Scraper.baseUrl ++ "a?xobec=9" := by
          have hl : (V2.extract_all_district_links Fixtures.idxOne).1 =
              [Scraper.baseUrl ++ "a?xobec=9"] := by decide
          rw [hl] at hu
          simpa using hu
        exact ⟨Fixtures.pageD1, by rw [h2]; decide⟩),
   (C5_fatal_fetch Fixtures.fetchIdxOnly Fixtures.urlIdx).2.2.2.1 Fixtures.idxOne
      [Scraper.baseUrl ++ "a?xobec=9"]
      [] (Scraper.baseUrl ++ "a?xobec=9") []
      { errClass := "HTTPError", msg := "404" }
      (by decide) (by decide) (by decide) (by intro v hv; simp at hv) (by decide),
   (C5_fatal_fetch Fixtures.fetchAllOk Fixtures.urlIdx).2.2.2.2 Fixtures.idxOne
      [Scraper.baseUrl ++ "a?xobec=9"]
      (by decide) (by decide)
      (by
        intro u hu
        simp at hu
        subst hu
        exact ⟨Fixtures.pageD1, by decide⟩)⟩

/-- C7: over any result set whose records carry a party mapping (the data
model of the specification), the chart totals assign every party the sum of
its votes over all records, a party absent from a record contributing zero;
the rendered selection is the first ten entries of a stable descending sort
of the totals, hence sorted by descending total, a permutation-prefix of the
totals, with ties keeping first-encounter order; in particular the concrete
two-district example yields A=17 above B=3, and a tie keeps encounter
order. -/
theorem C7_chart_totals (rs : Scraper.ResultSet)
    (h : ∀ kr ∈ rs, ((kr : String × Scraper.DistrictRecord).2.political_parties_votes).isSome
      = true) :
    (∃ totals,
      Scraper.computePartyTotals (rs.map (fun q => q.2)) = Except.ok totals ∧
      (∀ k, Scraper.getTotal k totals = Scraper.specTotal k (rs.map (fun q => q.2))) ∧
      Scraper.plot_top_10_parties rs = Except.ok ((Scraper.pySortDesc totals).take 10) ∧
      ((Scraper.pySortDesc totals).take 10).Pairwise (fun a b => b.2 ≤ a.2) ∧
      (Scraper.pySortDesc totals).Perm totals) ∧
    Scraper.plot_top_10_parties Fixtures.rsAB = Except.ok [("A", 17), ("B", 3)] ∧
    Scraper.pySortDesc [("A", 5), ("B", 5)] = [("A", 5), ("B", 5)] := by
  refine ⟨?_, by decide, by decide⟩
  have h2 : ∀ r ∈ rs.map (fun q => q.2), (r.political_parties_votes).isSome = true := by
    intro r hr
    rw [List.mem_map] at hr
    obtain ⟨q, hq, he⟩ := hr
    rw [← he]
    exact h q hq
  obtain ⟨l, hl, hk⟩ := Scraper.computePartyTotals_ok (rs.map (fun q => q.2)) h2
  refine ⟨l, hl, hk, ?_, ?_, Scraper.pySortDesc_perm l⟩
  · rw [Scraper.plot_top_10_parties, hl]
  · exact List.Pairwise.sublist (List.take_sublist 10 _) (Scraper.pySortDesc_sorted l)

/-- Witness for C7 at the concrete two-district example. -/
theorem C7_chart_totals_witness :
    ∃ totals,
      Scraper.computePartyTotals (Fixtures.rsAB.map (fun q => q.2)) = Except.ok totals ∧
      (∀ k, Scraper.getTotal k totals = Scraper.specTotal k (Fixtures.rsAB.map (fun q => q.2))) ∧
      Scraper.plot_top_10_parties Fixtures.rsAB =
        Except.ok ((Scraper.pySortDesc totals).take 10) ∧
      ((Scraper.pySortDesc totals).take 10).Pairwise (fun a b => b.2 ≤ a.2) ∧
      (Scraper.pySortDesc totals).Perm totals :=
  (C7_chart_totals Fixtures.rsAB (by decide)).1

/-- C8 counterexample: an index page with two valid district cells whose
processing emits no diagnostic at all, but whose two pages carry the same
code 9; both scripts end with a single entry, not two, and the entry holds
the record of the later link (last-write-wins). -/
theorem C8_counterexample :
    (Scraper.linkCells Fixtures.idxDup).length = 2 ∧
    V1.global_data Fixtures.fetchDup Fixtures.idxDup =
      Except.ok ([("9", Fixtures.recD2v1)], []) ∧
    V2.extract_all_districts_data Fixtures.fetchDup Fixtures.idxDup =
      Except.ok ([("9", Fixtures.recD2v2)], []) ∧
    (1 : Nat) ≠ 2 := by decide

/-- C8 amended: with no diagnostics and pairwise distinct district codes the
result set has exactly one entry per valid cell; in the second script a
district whose location name is missing or empty is skipped with no message,
so its links must additionally carry well-formed headings; records are keyed
by code and a repeated code keeps the last written record. -/
theorem C8_result_set_count :
    (∀ (fetch : Scraper.Fetch) (soup : Scraper.Page) (links : List String)
        (rs : Scraper.ResultSet),
      V1.all_district_links soup = Except.ok links →
      V1.global_data fetch soup = Except.ok (rs, []) →
      (links.filterMap (fun u => Scraper.get_code_from_url u)).Nodup →
      rs.length = (Scraper.linkCells soup).length) ∧
    (∀ (fetch : Scraper.Fetch) (soup : Scraper.Page) (rs : Scraper.ResultSet),
      (V2.extract_all_district_links soup).2 = [] →
      V2.extract_all_districts_data fetch soup = Except.ok (rs, []) →
      ((V2.extract_all_district_links soup).1.filterMap
          (fun u => Scraper.get_code_from_url u)).Nodup →
      (∀ u ∈ (V2.extract_all_district_links soup).1, ∀ p, fetch u = Except.ok p →
        ∃ t s2, p.headingText = some t ∧ Scraper.nameOfHeading t = some s2 ∧ s2 ≠ "") →
      rs.length = (Scraper.linkCells soup).length) ∧
    (∀ (rs : Scraper.ResultSet) (c : String) (r : Scraper.DistrictRecord),
      Scraper.lookupVal c (Scraper.dictInsert rs c r) = some r) := by
  refine ⟨?_, ?_, ?_⟩
  · intro fetch soup links rs hlinks hgd hnodup
    rw [V1.global_data, hlinks] at hgd
    have hins : ∀ u ∈ links, ∀ p, fetch u = Except.ok p →
        (V1.processDistrict p u).2 = [] →
        ∃ c r, Scraper.get_code_from_url u = some c ∧
          (V1.processDistrict p u).1 = some (c, r) :=
      fun u _ p _ h2 => v1_proc_inserts p u h2
    have hcount := Scraper.aggregate_count fetch V1.processDistrict links ([], []) rs
      hgd hins hnodup (by intro u hu c hc hmem; simp [Scraper.keys] at hmem)
    rw [hcount, Scraper.v1_all_district_links_length soup links hlinks]
    simp
  · intro fetch soup rs hw hgd hnodup hgood
    simp only [V2.extract_all_districts_data] at hgd
    rw [hw] at hgd
    have hins : ∀ u ∈ (V2.extract_all_district_links soup).1, ∀ p,
        fetch u = Except.ok p → (V2.processDistrict p u).2 = [] →
        ∃ c r, Scraper.get_code_from_url u = some c ∧
          (V2.processDistrict p u).1 = some (c, r) := by
      intro u hu p hp h2
      obtain ⟨t, s2, hht, hn, hs⟩ := hgood u hu p hp
      exact v2_proc_inserts p u t s2 hht hn hs h2
    have hcount := Scraper.aggregate_count fetch V2.processDistrict
      (V2.extract_all_district_links soup).1 ([], []) rs hgd hins hnodup
      (by intro u hu c hc hmem; simp [Scraper.keys] at hmem)
    rw [hcount]
    have hfm := Scraper.v2_links_foldl_fst (Scraper.linkCells soup) ([], [])
    have hw2 : (V2.extract_all_district_links soup).1 =
        (Scraper.linkCells soup).filterMap
          (fun c => V2.collect_url c.linkTag Scraper.baseUrl) := by
      simpa [V2.extract_all_district_links] using hfm
    have hall : ∀ c ∈ Scraper.linkCells soup,
        (V2.collect_url c.linkTag Scraper.baseUrl).isSome = true := by
      apply Scraper.v2_links_foldl_snd (Scraper.linkCells soup) ([], [])
      simpa [V2.extract_all_district_links] using hw
    rw [hw2, Scraper.filterMap_length_of_all_some _ _ hall]
    simp
  · intro rs c r
    exact Scraper.lookupVal_dictInsert_self rs c r

/-- Witness for C8 at a concrete two-district run with distinct codes and no
diagnostics: both scripts produce exactly two entries. -/
theorem C8_result_set_count_witness :
    ([("1", Fixtures.recD1v1), ("2", Fixtures.recD2v1)] : Scraper.ResultSet).length =
      (Scraper.linkCells Fixtures.idxOk).length ∧
    ([("1", Fixtures.recD1v2), ("2", Fixtures.recD2v2)] : Scraper.ResultSet).length =
      (Scraper.linkCells Fixtures.idxOk).length :=
  ⟨C8_result_set_count.1 Fixtures.fetchOk2 Fixtures.idxOk
      [Scraper.baseUrl ++ "a?xobec=1", Scraper.baseUrl ++ "b?xobec=2"]
      [("1", Fixtures.recD1v1), ("2", Fixtures.recD2v1)]
      (by decide) (by decide) (by decide),
   C8_result_set_count.2.1 Fixtures.fetchOk2 Fixtures.idxOk
      [("1", Fixtures.recD1v2), ("2", Fixtures.recD2v2)]
      (by decide) (by decide) (by decide)
      (by
        intro u hu p hp
        have hl : (V2.extract_all_district_links Fixtures.idxOk).1 =
            [Scraper.baseUrl ++ "a?xobec=1", Scraper.baseUrl ++ "b?xobec=2"] := by decide
        rw [hl] at hu
        simp at hu
        rcases hu with h2 | h2
        · subst h2
          have hf : Fixtures.fetchOk2 (Scraper.baseUrl ++ "a?xobec=1") =
              Except.ok Fixtures.pageD1 := by decide
          rw [hf] at hp
          have hp2 := (Except.ok.inj hp).symm
          subst hp2
          exact ⟨"Obec: X", " X", rfl, by decide, by decide⟩
        · subst h2
          have hf : Fixtures.fetchOk2 (Scraper.baseUrl ++ "b?xobec=2") =
              Except.ok Fixtures.pageD2 := by decide
          rw [hf] at hp
          have hp2 := (Except.ok.inj hp).symm
          subst hp2
          exact ⟨"Obec: Y", " Y", rfl, by decide, by decide⟩)⟩
